import Mathlib

/-!
Shallow embedding of the Agent V2 conversation engine of the `autoventas`
repository (apps/api/src/agent_v2): domain model, action validator, action
executor, LLM orchestrator, response builder and the processMessage pipeline.

Modelling conventions:
* JavaScript numbers are modelled as exact rationals (`ℚ`); the
  `Number.isInteger` check becomes `Rat.den = 1`.
* JavaScript strings are Lean `String`s.  `trim`, `toLowerCase` and
  `includes` are re-implemented over the character list so that they
  compute by kernel reduction; they have the same meaning as the JS ones.
* `undefined`/`null`-able fields are `Option`s; JS falsiness checks
  (`!x`) on strings test for `none`/`""` and on numbers for `none`/`0`,
  exactly where the source performs them.
* The external LLM call and `JSON.parse` are environment inputs: the
  orchestrator takes the outcome of the call (`Except Unit Json`, where
  `.error` models a thrown call failure) and a parse oracle
  `String → Option Json` (`none` models an unparsable string).  The
  prompt text itself influences no verified property.
* State cloning (`cloneState`/`cloneCart`) is the identity on immutable
  Lean values and is therefore not reified.
-/

-- ===========================================================================
-- String helpers (JS semantics, kernel-computable)
-- ===========================================================================

/-- JS `String.prototype.trim`: strip leading and trailing whitespace. -/
def strTrim (s : String) : String :=
  ⟨((s.data.dropWhile Char.isWhitespace).reverse.dropWhile Char.isWhitespace).reverse⟩

/-- JS `String.prototype.toLowerCase` (simple character mapping). -/
def strToLower (s : String) : String :=
  ⟨s.data.map Char.toLower⟩

/-- Occurrence of `pat` as a contiguous sublist, scanning left to right. -/
def charsInclude (pat : List Char) : List Char → Bool
  | [] => pat.isPrefixOf []
  | c :: rest => pat.isPrefixOf (c :: rest) || charsInclude pat rest

/-- JS `String.prototype.includes`: substring occurrence. -/
def strIncludes (s pat : String) : Bool :=
  charsInclude pat.data s.data

-- ===========================================================================
-- Domain model (agent_v2/types.ts)
-- ===========================================================================

/-- The 7 FSM states (`FsmState` in types.ts). -/
inductive FsmState
  | IDLE
  | BROWSING
  | CART_OPEN
  | CHECKOUT
  | AWAITING_PAYMENT
  | COMPLETED
  | HUMAN_TAKEOVER
deriving DecidableEq, Fintype

/-- The literal name of an FSM state, as it appears in the TS source. -/
def FsmState.name : FsmState → String
  | .IDLE => "IDLE"
  | .BROWSING => "BROWSING"
  | .CART_OPEN => "CART_OPEN"
  | .CHECKOUT => "CHECKOUT"
  | .AWAITING_PAYMENT => "AWAITING_PAYMENT"
  | .COMPLETED => "COMPLETED"
  | .HUMAN_TAKEOVER => "HUMAN_TAKEOVER"

/-- `FSM_STATES` from constants.ts, in source order. -/
def FSM_STATES : List FsmState :=
  [.IDLE, .BROWSING, .CART_OPEN, .CHECKOUT, .AWAITING_PAYMENT, .COMPLETED,
   .HUMAN_TAKEOVER]

/-- Parse an FSM state name (used to model `FSM_STATES.includes(state)`
followed by the cast to `FsmState`). -/
def fsmStateOfString (s : String) : Option FsmState :=
  (FSM_STATES.find? (fun st => st.name = s))

/-- Conversation events (`ConversationEvent` in types.ts). -/
inductive ConversationEvent
  | GREETING_RECEIVED
  | PAYMENT_PROOF_RECEIVED
  | PAYMENT_APPROVED
  | PAYMENT_REJECTED
  | ESCALATION_REQUESTED
  | SESSION_TIMEOUT
  | ORDER_CANCELLED
deriving DecidableEq

/-- `ActionParams` from types.ts: the narrow per-action parameter bag. -/
structure ActionParams where
  product_id : Option String := none
  product_name : Option String := none
  quantity : Option ℚ := none
  reason : Option String := none
deriving DecidableEq

/-- `ProposedAction` from types.ts.  The `type` is kept as a raw string:
the validator receives untrusted strings and checks them against the
allowed/prohibited lists itself. -/
structure ProposedAction where
  type : String
  params : Option ActionParams := none
deriving DecidableEq

/-- `action.params?.product_id` (optional chaining). -/
def ProposedAction.productId (a : ProposedAction) : Option String :=
  a.params.bind (fun p => p.product_id)

/-- `action.params?.quantity` (optional chaining). -/
def ProposedAction.quantityParam (a : ProposedAction) : Option ℚ :=
  a.params.bind (fun p => p.quantity)

/-- `CartItem` from types.ts. -/
structure CartItem where
  product_id : String
  name : String
  quantity : ℚ
  unit_price : ℚ
  subtotal : ℚ
deriving DecidableEq

/-- `Cart` from types.ts. -/
structure Cart where
  items : List CartItem
  total : ℚ
  currency : String
deriving DecidableEq

/-- `Product` from types.ts (also the inline catalog entry type of
action-executor.ts). -/
structure Product where
  id : String
  name : String
  price : ℚ
  active : Bool
deriving DecidableEq

/-- `LlmResponse` from types.ts. -/
structure LlmResponse where
  reasoning : Option String := none
  proposed_actions : List ProposedAction
  response_text : String
  suggested_state : Option FsmState := none
deriving DecidableEq

/-- `ConversationState` from types.ts.  `events_log` entries are opaque to
the engine and modelled as strings. -/
structure ConversationState where
  fsm_state : FsmState
  human_override : Bool
  human_override_at : Option String := none
  cart_json : Cart
  pending_order_id : Option String := none
  events_log : List String := []
  last_llm_response : Option LlmResponse := none
deriving DecidableEq

-- ===========================================================================
-- Constants (agent_v2/constants.ts)
-- ===========================================================================

/-- `ALLOWED_ACTIONS` from constants.ts, in source order. -/
def ALLOWED_ACTIONS : List String :=
  ["SHOW_CATALOG", "SHOW_PRODUCT",
   "ADD_TO_CART", "UPDATE_QUANTITY", "REMOVE_ITEM", "CLEAR_CART",
   "REVIEW_ORDER", "CONFIRM_ORDER", "CANCEL_ORDER",
   "REPLY", "CLARIFY", "ESCALATE"]

/-- `PROHIBITED_ACTIONS` from constants.ts. -/
def PROHIBITED_ACTIONS : List String :=
  ["MODIFY_PRICE", "APPLY_DISCOUNT", "APPROVE_PAYMENT", "REJECT_PAYMENT",
   "DISABLE_OVERRIDE"]

/-- `QUANTITY_MIN` from constants.ts. -/
def QUANTITY_MIN : ℚ := 1

/-- `QUANTITY_MAX` from constants.ts. -/
def QUANTITY_MAX : ℚ := 100

/-- `DEFAULT_CART` from constants.ts. -/
def DEFAULT_CART : Cart :=
  { items := [], total := 0, currency := "BOB" }

/-- `DEFAULT_CONVERSATION_STATE` from constants.ts. -/
def DEFAULT_CONVERSATION_STATE : ConversationState :=
  { fsm_state := .IDLE
    human_override := false
    human_override_at := none
    cart_json := DEFAULT_CART
    pending_order_id := none
    events_log := []
    last_llm_response := none }

/-- `validStates` of a rule: either `'all'` or an explicit state list. -/
inductive ValidStates
  | all
  | only (states : List FsmState)

/-- `ActionValidationRule` from types.ts. -/
structure ActionValidationRule where
  validStates : ValidStates
  requiresProductId : Bool := false
  requiresQuantity : Bool := false
  requiresCartNotEmpty : Bool := false
  requiresItemInCart : Bool := false

/-- `ACTION_VALIDATION_RULES` from constants.ts, as a lookup on the action
type name (`ACTION_VALIDATION_RULES[type]`, `none` = `undefined`). -/
def ACTION_VALIDATION_RULES : String → Option ActionValidationRule
  | "SHOW_CATALOG" => some { validStates := .all }
  | "SHOW_PRODUCT" => some { validStates := .all, requiresProductId := true }
  | "ADD_TO_CART" =>
      some { validStates := .only [.IDLE, .BROWSING, .CART_OPEN],
             requiresProductId := true, requiresQuantity := true }
  | "UPDATE_QUANTITY" =>
      some { validStates := .only [.CART_OPEN],
             requiresProductId := true, requiresQuantity := true,
             requiresItemInCart := true }
  | "REMOVE_ITEM" =>
      some { validStates := .only [.CART_OPEN],
             requiresProductId := true, requiresItemInCart := true }
  | "CLEAR_CART" =>
      some { validStates := .only [.CART_OPEN], requiresCartNotEmpty := true }
  | "REVIEW_ORDER" =>
      some { validStates := .only [.CART_OPEN], requiresCartNotEmpty := true }
  | "CONFIRM_ORDER" =>
      some { validStates := .only [.CHECKOUT], requiresCartNotEmpty := true }
  | "CANCEL_ORDER" =>
      some { validStates := .only [.CART_OPEN, .CHECKOUT, .AWAITING_PAYMENT] }
  | "REPLY" => some { validStates := .all }
  | "CLARIFY" => some { validStates := .all }
  | "ESCALATE" => some { validStates := .all }
  | _ => none

-- ===========================================================================
-- Action validator (agent_v2/action-validator.ts)
-- ===========================================================================

/-- `ValidationResult` from types.ts. -/
structure ValidationResult where
  valid : Bool
  error : Option String := none
  action : ProposedAction
deriving DecidableEq

/-- `ValidationContext` from action-validator.ts. -/
structure ValidationContext where
  currentState : FsmState
  cart : Cart

/-- `isProhibitedAction` from action-validator.ts. -/
def isProhibitedAction (type : String) : Bool :=
  PROHIBITED_ACTIONS.contains type

/-- `isAllowedAction` from action-validator.ts. -/
def isAllowedAction (type : String) : Bool :=
  ALLOWED_ACTIONS.contains type

/-- `validateState` from action-validator.ts. -/
def validateState (actionType : String) (currentState : FsmState)
    (validStates : ValidStates) : Option String :=
  match validStates with
  | .all => none
  | .only states =>
      if states.contains currentState then none
      else some ("Action \"" ++ actionType ++ "\" is not allowed in state \""
        ++ currentState.name ++ "\". Valid states: "
        ++ String.intercalate ", " (states.map FsmState.name))

/-- `validateProductId` from action-validator.ts
(`!productId || productId.trim() === ''`). -/
def validateProductId (productId : Option String) : Option String :=
  match productId with
  | none => some "product_id is required"
  | some p =>
      if p = "" ∨ strTrim p = "" then some "product_id is required"
      else none

/-- `validateQuantity` from action-validator.ts. -/
def validateQuantity (quantity : Option ℚ) : Option String :=
  match quantity with
  | none => some "quantity is required"
  | some q =>
      if q.den ≠ 1 then
        some ("quantity must be an integer, got: " ++ toString q)
      else if q < QUANTITY_MIN ∨ q > QUANTITY_MAX then
        some ("quantity must be between 1 and 100, got: " ++ toString q)
      else none

/-- `validateCartNotEmpty` from action-validator.ts. -/
def validateCartNotEmpty (cart : Cart) : Option String :=
  if cart.items.length = 0 then some "Cart is empty" else none

/-- `validateItemInCart` from action-validator.ts (`!productId` is JS
falsiness: absent or empty string). -/
def validateItemInCart (productId : Option String) (cart : Cart) :
    Option String :=
  match productId with
  | none => some "product_id is required to identify item in cart"
  | some p =>
      if p = "" then some "product_id is required to identify item in cart"
      else if cart.items.any (fun item => item.product_id = p) then none
      else some ("Item with product_id \"" ++ p ++ "\" not found in cart")

/-- `validateAction` from action-validator.ts: the 8 sequential checks with
early return. -/
def validateAction (action : ProposedAction) (context : ValidationContext) :
    ValidationResult :=
  if isProhibitedAction action.type then
    { valid := false,
      error := some ("Action \"" ++ action.type ++ "\" is prohibited"),
      action := action }
  else if ¬ isAllowedAction action.type then
    { valid := false,
      error := some ("Action \"" ++ action.type ++ "\" is not a recognized action type"),
      action := action }
  else
    match ACTION_VALIDATION_RULES action.type with
    | none =>
        { valid := false,
          error := some ("No validation rules defined for action \""
            ++ action.type ++ "\""),
          action := action }
    | some rules =>
        match validateState action.type context.currentState rules.validStates with
        | some stateError => { valid := false, error := some stateError, action := action }
        | none =>
        match (if rules.requiresProductId then validateProductId action.productId else none) with
        | some productError => { valid := false, error := some productError, action := action }
        | none =>
        match (if rules.requiresQuantity then validateQuantity action.quantityParam else none) with
        | some quantityError => { valid := false, error := some quantityError, action := action }
        | none =>
        match (if rules.requiresCartNotEmpty then validateCartNotEmpty context.cart else none) with
        | some cartError => { valid := false, error := some cartError, action := action }
        | none =>
        match (if rules.requiresItemInCart then validateItemInCart action.productId context.cart else none) with
        | some itemError => { valid := false, error := some itemError, action := action }
        | none => { valid := true, action := action }

/-- `validateActions` from action-validator.ts. -/
def validateActions (actions : List ProposedAction) (context : ValidationContext) :
    List ValidationResult :=
  actions.map (fun action => validateAction action context)

/-- Result shape of `getValidActions`. -/
structure ValidActionsSplit where
  valid : List ProposedAction
  rejected : List ValidationResult
deriving DecidableEq

/-- `getValidActions` from action-validator.ts: partition preserving order. -/
def getValidActions (actions : List ProposedAction) (context : ValidationContext) :
    ValidActionsSplit :=
  let results := validateActions actions context
  { valid := (results.filter (fun r => r.valid)).map (fun r => r.action)
    rejected := results.filter (fun r => ¬ r.valid) }

-- ===========================================================================
-- Event detector (agent_v2/event-detector.ts)
-- ===========================================================================

/-- Input of `detectEvents`. -/
structure DetectEventsInput where
  customer_message : String
  has_image : Bool
  human_override : Bool

/-- `detectEvents` from event-detector.ts: keyword detection in priority
order; empty when a human has taken over. -/
def detectEvents (input : DetectEventsInput) : List ConversationEvent :=
  if input.human_override then []
  else
    let messageLower := strToLower input.customer_message
    (if strIncludes messageLower "hablar con alguien"
        || strIncludes messageLower "asesor"
        || strIncludes messageLower "humano"
     then [ConversationEvent.ESCALATION_REQUESTED] else [])
    ++
    (if input.has_image
        || strIncludes messageLower "pagué"
        || strIncludes messageLower "transferí"
     then [ConversationEvent.PAYMENT_PROOF_RECEIVED] else [])
    ++
    (if strIncludes messageLower "cancelar pedido"
        || strIncludes messageLower "ya no quiero"
     then [ConversationEvent.ORDER_CANCELLED] else [])
    ++
    (if strIncludes messageLower "hola"
        || strIncludes messageLower "buenos días"
        || strIncludes messageLower "buenas tardes"
     then [ConversationEvent.GREETING_RECEIVED] else [])

-- ===========================================================================
-- Action executor (agent_v2/action-executor.ts)
-- ===========================================================================

/-- `ExecuteActionsInput` from action-executor.ts. -/
structure ExecuteActionsInput where
  actions : List ProposedAction
  current_state : ConversationState
  product_catalog : List Product

/-- `ExecuteActionsResult` from action-executor.ts. -/
structure ExecuteActionsResult where
  executed_actions : List ProposedAction
  new_state : ConversationState
deriving DecidableEq

/-- `SingleActionResult` from action-executor.ts. -/
structure SingleActionResult where
  executed : Bool
  state : ConversationState
deriving DecidableEq

/-- `cart.items.reduce((sum, item) => sum + item.subtotal, 0)`. -/
def sumSubtotals (items : List CartItem) : ℚ :=
  items.foldl (fun sum item => sum + item.subtotal) 0

/-- `transitionOnAddToCart` from action-executor.ts. -/
def transitionOnAddToCart (current : FsmState) : FsmState :=
  match current with
  | .IDLE => .CART_OPEN
  | .BROWSING => .CART_OPEN
  | _ => current

/-- The external clock reading `new Date().toISOString()`, modelled as an
arbitrary fixed value (no verified property inspects it). -/
def currentTimestamp : String := "1970-01-01T00:00:00.000Z"

/-- `executeAddToCart` from action-executor.ts.  `!product_id || !quantity`
is JS falsiness (absent / empty string / zero). -/
def executeAddToCart (action : ProposedAction) (state : ConversationState)
    (catalog : List Product) : SingleActionResult :=
  match action.productId, action.quantityParam with
  | some product_id, some quantity =>
    if product_id = "" ∨ quantity = 0 then { executed := false, state := state }
    else
      match catalog.find? (fun p => p.id = product_id) with
      | none => { executed := false, state := state }
      | some product =>
        let items := state.cart_json.items
        let newItems :=
          match items.findIdx? (fun i => i.product_id = product_id) with
          | some existingIndex =>
              match items[existingIndex]? with
              | some item =>
                  items.set existingIndex
                    { item with
                        quantity := item.quantity + quantity,
                        subtotal := (item.quantity + quantity) * item.unit_price }
              | none => items
          | none =>
              items ++ [{ product_id := product.id
                          name := product.name
                          quantity := quantity
                          unit_price := product.price
                          subtotal := quantity * product.price }]
        { executed := true
          state :=
            { state with
                cart_json :=
                  { items := newItems
                    total := sumSubtotals newItems
                    currency := state.cart_json.currency }
                fsm_state := transitionOnAddToCart state.fsm_state } }
  | _, _ => { executed := false, state := state }

/-- `executeUpdateQuantity` from action-executor.ts. -/
def executeUpdateQuantity (action : ProposedAction) (state : ConversationState) :
    SingleActionResult :=
  match action.productId, action.quantityParam with
  | some product_id, some quantity =>
    if product_id = "" ∨ quantity = 0 then { executed := false, state := state }
    else
      match state.cart_json.items.findIdx? (fun i => i.product_id = product_id) with
      | none => { executed := false, state := state }
      | some itemIndex =>
        let items := state.cart_json.items
        let newItems :=
          match items[itemIndex]? with
          | some item =>
              items.set itemIndex
                { item with
                    quantity := quantity,
                    subtotal := quantity * item.unit_price }
          | none => items
        { executed := true
          state :=
            { state with
                cart_json :=
                  { items := newItems
                    total := sumSubtotals newItems
                    currency := state.cart_json.currency } } }
  | _, _ => { executed := false, state := state }

/-- `executeRemoveItem` from action-executor.ts (`splice(index, 1)` is
`eraseIdx`). -/
def executeRemoveItem (action : ProposedAction) (state : ConversationState) :
    SingleActionResult :=
  match action.productId with
  | none => { executed := false, state := state }
  | some product_id =>
    if product_id = "" then { executed := false, state := state }
    else
      match state.cart_json.items.findIdx? (fun i => i.product_id = product_id) with
      | none => { executed := false, state := state }
      | some itemIndex =>
        let newItems := state.cart_json.items.eraseIdx itemIndex
        { executed := true
          state :=
            { state with
                cart_json :=
                  { items := newItems
                    total := sumSubtotals newItems
                    currency := state.cart_json.currency }
                fsm_state :=
                  if newItems.length = 0 then .BROWSING else state.fsm_state } }

/-- `executeClearCart` from action-executor.ts. -/
def executeClearCart (state : ConversationState) : SingleActionResult :=
  { executed := true
    state := { state with cart_json := DEFAULT_CART, fsm_state := .BROWSING } }

/-- `executeReviewOrder` from action-executor.ts. -/
def executeReviewOrder (state : ConversationState) : SingleActionResult :=
  if state.fsm_state ≠ .CART_OPEN then { executed := true, state := state }
  else { executed := true, state := { state with fsm_state := .CHECKOUT } }

/-- `executeConfirmOrder` from action-executor.ts. -/
def executeConfirmOrder (state : ConversationState) : SingleActionResult :=
  if state.fsm_state ≠ .CHECKOUT then { executed := true, state := state }
  else { executed := true, state := { state with fsm_state := .AWAITING_PAYMENT } }

/-- `executeCancelOrder` from action-executor.ts: unconditionally resets the
cart, moves to IDLE and clears `pending_order_id`. -/
def executeCancelOrder (state : ConversationState) : SingleActionResult :=
  { executed := true
    state :=
      { state with
          cart_json := DEFAULT_CART
          fsm_state := .IDLE
          pending_order_id := none } }

/-- `executeEscalate` from action-executor.ts. -/
def executeEscalate (state : ConversationState) : SingleActionResult :=
  { executed := true
    state :=
      { state with
          fsm_state := .HUMAN_TAKEOVER
          human_override := true
          human_override_at := some currentTimestamp } }

/-- `executeSingleAction` from action-executor.ts: dispatch on the action
type; unknown types have no effect and are not recorded as executed. -/
def executeSingleAction (action : ProposedAction) (state : ConversationState)
    (catalog : List Product) : SingleActionResult :=
  match action.type with
  | "ADD_TO_CART" => executeAddToCart action state catalog
  | "UPDATE_QUANTITY" => executeUpdateQuantity action state
  | "REMOVE_ITEM" => executeRemoveItem action state
  | "CLEAR_CART" => executeClearCart state
  | "REVIEW_ORDER" => executeReviewOrder state
  | "CONFIRM_ORDER" => executeConfirmOrder state
  | "CANCEL_ORDER" => executeCancelOrder state
  | "ESCALATE" => executeEscalate state
  | "SHOW_CATALOG" => { executed := true, state := state }
  | "SHOW_PRODUCT" => { executed := true, state := state }
  | "REPLY" => { executed := true, state := state }
  | "CLARIFY" => { executed := true, state := state }
  | _ => { executed := false, state := state }

/-- One step of the execution loop of `executeActions`. -/
def execStep (catalog : List Product)
    (acc : ConversationState × List ProposedAction) (action : ProposedAction) :
    ConversationState × List ProposedAction :=
  let result := executeSingleAction action acc.1 catalog
  (result.state, if result.executed then acc.2 ++ [action] else acc.2)

/-- `executeActions` from action-executor.ts: apply the actions in order to
a working copy of the state, collecting the executed ones. -/
def executeActions (input : ExecuteActionsInput) : ExecuteActionsResult :=
  let final := input.actions.foldl (execStep input.product_catalog)
    (input.current_state, [])
  { executed_actions := final.2, new_state := final.1 }

-- ===========================================================================
-- JSON values (the parsed form of the raw LLM output)
-- ===========================================================================

/-- A parsed JSON value.  Arrays and plain objects are distinguished because
`Array.isArray` and property lookup behave differently on them. -/
inductive Json
  | null
  | bool (b : Bool)
  | num (q : ℚ)
  | str (s : String)
  | arr (elements : List Json)
  | obj (fields : List (String × Json))

/-- Property access `o["k"]` on a parsed JSON object (parsed objects have
distinct keys; the first binding wins). -/
def getField (fields : List (String × Json)) (key : String) : Option Json :=
  (fields.find? (fun f => f.1 = key)).map (fun f => f.2)

-- ===========================================================================
-- LLM orchestrator (agent_v2/llm-orchestrator.ts)
-- ===========================================================================

/-- `MAX_ACTIONS` from llm-orchestrator.ts. -/
def MAX_ACTIONS : Nat := 5

/-- `MAX_RESPONSE_TEXT_LENGTH` from llm-orchestrator.ts. -/
def MAX_RESPONSE_TEXT_LENGTH : Nat := 500

/-- `FALLBACK_RESPONSE_TEXT` from llm-orchestrator.ts. -/
def FALLBACK_RESPONSE_TEXT : String :=
  "Disculpa, no pude procesar tu mensaje. ¿Podrías intentar de nuevo?"

/-- One entry of `recent_history` in `LlmContextInput` from types.ts. -/
structure HistoryTurn where
  role : String
  text : String

/-- `LlmContextInput` from types.ts. -/
structure LlmContextInput where
  current_state : FsmState
  detected_events : List ConversationEvent
  cart : Cart
  customer_message : String
  recent_history : List HistoryTurn
  product_catalog : List Product

/-- `isValidFsmState` from llm-orchestrator.ts:
`typeof state === 'string' && FSM_STATES.includes(state)`. -/
def isValidFsmState (state : Json) : Bool :=
  match state with
  | .str s => (fsmStateOfString s).isSome
  | _ => false

/-- `isValidActionType` from llm-orchestrator.ts:
`typeof type === 'string' && ALLOWED_ACTIONS.includes(type)`. -/
def isValidActionType (type : Json) : Bool :=
  match type with
  | .str s => ALLOWED_ACTIONS.contains s
  | _ => false

/-- `isValidActionParams` from llm-orchestrator.ts.  `undefined`/`null`
params are valid; non-objects are not (a JSON array is `typeof 'object'`
and has none of the checked keys, hence passes). -/
def isValidActionParams (params : Option Json) : Bool :=
  match params with
  | none => true
  | some .null => true
  | some (.arr _) => true
  | some (.obj p) =>
      (match getField p "product_id" with
       | none => true | some (.str _) => true | some _ => false)
      &&
      (match getField p "product_name" with
       | none => true | some (.str _) => true | some _ => false)
      &&
      (match getField p "quantity" with
       | none => true
       | some (.num q) => q.den = 1 && QUANTITY_MIN ≤ q && q ≤ QUANTITY_MAX
       | some _ => false)
      &&
      (match getField p "reason" with
       | none => true | some (.str _) => true | some _ => false)
  | some _ => false

/-- `isValidProposedAction` from llm-orchestrator.ts. -/
def isValidProposedAction (action : Json) : Bool :=
  match action with
  | .obj a =>
      (match getField a "type" with
       | some t => isValidActionType t
       | none => false)
      && isValidActionParams (getField a "params")
  | _ => false

/-- The cast `r.proposed_actions as ProposedAction[]`: project a validated
JSON action onto the structured `ProposedAction` the pipeline consumes
(property access on the validated object). -/
def toProposedAction (action : Json) : ProposedAction :=
  match action with
  | .obj a =>
      { type :=
          match getField a "type" with
          | some (.str s) => s
          | _ => ""
        params :=
          match getField a "params" with
          | some (.obj p) =>
              some { product_id :=
                       match getField p "product_id" with
                       | some (.str s) => some s | _ => none
                     product_name :=
                       match getField p "product_name" with
                       | some (.str s) => some s | _ => none
                     quantity :=
                       match getField p "quantity" with
                       | some (.num q) => some q | _ => none
                     reason :=
                       match getField p "reason" with
                       | some (.str s) => some s | _ => none }
          | _ => none }
  | _ => { type := "", params := none }

/-- `validateLlmResponse` from llm-orchestrator.ts: the sequential schema
checks with early `null` return. -/
def validateLlmResponse (response : Json) : Option LlmResponse :=
  match response with
  | .obj r =>
      match getField r "proposed_actions" with
      | some (.arr proposed_actions) =>
          if proposed_actions.length = 0 ∨ proposed_actions.length > MAX_ACTIONS then
            none
          else if ¬ proposed_actions.all isValidProposedAction then none
          else
            match getField r "response_text" with
            | some (.str response_text) =>
                if response_text.length > MAX_RESPONSE_TEXT_LENGTH then none
                else
                  let reasoningOk :=
                    match getField r "reasoning" with
                    | none => true | some (.str _) => true | some _ => false
                  let reasoningVal :=
                    match getField r "reasoning" with
                    | some (.str s) => some s | _ => none
                  match getField r "suggested_state" with
                  | none =>
                      if reasoningOk then
                        some { reasoning := reasoningVal
                               proposed_actions := proposed_actions.map toProposedAction
                               response_text := response_text
                               suggested_state := none }
                      else none
                  | some sv =>
                      match sv with
                      | .str ss =>
                          match fsmStateOfString ss with
                          | some st =>
                              if reasoningOk then
                                some { reasoning := reasoningVal
                                       proposed_actions := proposed_actions.map toProposedAction
                                       response_text := response_text
                                       suggested_state := some st }
                              else none
                          | none => none
                      | _ => none
            | _ => none
      | _ => none
  | _ => none

/-- `parseJsonResponse` from llm-orchestrator.ts: strip markdown code
fences, then `JSON.parse` (the parse oracle). -/
def parseJsonResponse (parse : String → Option Json) (responseText : String) :
    Option Json :=
  let text := strTrim responseText
  let text :=
    if text.startsWith "```json" then text.drop 7
    else if text.startsWith "```" then text.drop 3
    else text
  let text := if text.endsWith "```" then text.dropRight 3 else text
  parse (strTrim text)

/-- `createFallbackResponse` from llm-orchestrator.ts. -/
def createFallbackResponse (currentState : FsmState) : LlmResponse :=
  { proposed_actions := []
    response_text := FALLBACK_RESPONSE_TEXT
    suggested_state := some currentState }

/-- The outcome of `await callLlm(prompt)`: either a thrown failure or a
raw value (a string must still be JSON-parsed). -/
def rawToJson (parse : String → Option Json) (raw : Except Unit Json) :
    Option Json :=
  match raw with
  | .error _ => none
  | .ok (.str s) => parseJsonResponse parse s
  | .ok v => some v

/-- `runLlmOrchestrator` from llm-orchestrator.ts, parameterised by the
parse oracle and the outcome of the external LLM call. -/
def runLlmOrchestrator (parse : String → Option Json) (input : LlmContextInput)
    (rawResult : Except Unit Json) : LlmResponse :=
  match rawResult with
  | .error _ => createFallbackResponse input.current_state
  | .ok rawResponse =>
      let parsedResponse : Option Json :=
        match rawResponse with
        | .str s => parseJsonResponse parse s
        | v => some v
      match parsedResponse with
      | none => createFallbackResponse input.current_state
      | some parsed =>
          match validateLlmResponse parsed with
          | none => createFallbackResponse input.current_state
          | some validatedResponse =>
              match validatedResponse.suggested_state with
              | none => { validatedResponse with suggested_state := some input.current_state }
              | some _ => validatedResponse

-- ===========================================================================
-- Response builder (agent_v2/response-builder.ts)
-- ===========================================================================

/-- `ProcessMessageResult` from types.ts. -/
structure ProcessMessageResult where
  handled : Bool
  response_text : Option String
  new_state : Option FsmState := none
  executed_actions : Option (List ProposedAction) := none
  validation_errors : Option (List String) := none
deriving DecidableEq

/-- `BuildResponseInput` from response-builder.ts. -/
structure BuildResponseInput where
  human_override : Bool
  response_text : Option String
  new_state : FsmState
  executed_actions : List ProposedAction
  validation_errors : List String

/-- `buildResponse` from response-builder.ts.  `validation_errors` is
attached only when non-empty (`length > 0 ? ... : undefined`); the text
rule tests JS truthiness and then `trim().length > 0`. -/
def buildResponse (input : BuildResponseInput) : ProcessMessageResult :=
  let ve : Option (List String) :=
    if input.validation_errors.length > 0 then some input.validation_errors else none
  if input.human_override then
    { handled := true
      response_text := none
      new_state := some input.new_state
      executed_actions := some input.executed_actions
      validation_errors := ve }
  else
    match input.response_text with
    | some response_text =>
        if response_text ≠ "" ∧ 0 < (strTrim response_text).length then
          { handled := true
            response_text := some response_text
            new_state := some input.new_state
            executed_actions := some input.executed_actions
            validation_errors := ve }
        else
          { handled := false
            response_text := none
            new_state := some input.new_state
            executed_actions := some input.executed_actions
            validation_errors := ve }
    | none =>
        { handled := false
          response_text := none
          new_state := some input.new_state
          executed_actions := some input.executed_actions
          validation_errors := ve }

-- ===========================================================================
-- processMessage pipeline (agent_v2/index.ts)
-- ===========================================================================

/-- `ActionHistoryRecord` from state-loader.ts (the shape inserted by the
pipeline). -/
structure ActionHistoryRecord where
  conversation_id : String
  action_type : String
  action_payload : ActionParams
  validated : Bool
  executed : Bool
  fsm_state_before : FsmState
  fsm_state_after : FsmState
deriving DecidableEq

/-- The fields the pipeline persists via `saveConversationState`. -/
structure SavedConversationFields where
  fsm_state : FsmState
  cart_json : Cart
  human_override : Bool
  human_override_at : Option String
  last_llm_response : LlmResponse
deriving DecidableEq

/-- The pure inputs of one `processMessage` run: the caller-supplied
`ProcessMessageInput` together with what the state gateway returns for it
(`loadFullState` and `loadRecentHistory`). -/
structure ProcessMessageEnv where
  conversation_id : String
  customer_message : String
  wa_phone : String
  tenant_id : String
  conversationState : ConversationState
  products : List Product
  recentHistory : List HistoryTurn

/-- Observable outcome of one `processMessage` run: the returned result,
whether the LLM orchestrator was reached, what was persisted, and the
action-history rows inserted. -/
structure PipelineOutcome where
  result : ProcessMessageResult
  llmCalled : Bool
  savedState : Option SavedConversationFields
  actionHistory : List ActionHistoryRecord
deriving DecidableEq

/-- `processMessage` from agent_v2/index.ts, parameterised by the parse
oracle and the outcome of the external LLM call (`rawResult`), with
gateway reads supplied in `env` and gateway writes recorded in the
outcome. -/
def processMessage (env : ProcessMessageEnv) (parse : String → Option Json)
    (rawResult : Except Unit Json) : PipelineOutcome :=
  let conversationState := env.conversationState
  -- Step 2: detect events (before the override check, as in the source)
  let detectedEvents := detectEvents
    { customer_message := env.customer_message
      has_image := false
      human_override := conversationState.human_override }
  -- Step 3: human override short-circuits to silence
  if conversationState.human_override then
    { result := buildResponse
        { human_override := true
          response_text := none
          new_state := conversationState.fsm_state
          executed_actions := []
          validation_errors := [] }
      llmCalled := false
      savedState := none
      actionHistory := [] }
  else
    -- Steps 4-5: build LLM context and run the orchestrator
    let llmContext : LlmContextInput :=
      { current_state := conversationState.fsm_state
        detected_events := detectedEvents
        cart := conversationState.cart_json
        customer_message := env.customer_message
        recent_history := env.recentHistory
        product_catalog := env.products }
    let llmResponse := runLlmOrchestrator parse llmContext rawResult
    -- Step 6: validate proposed actions
    let split := getValidActions llmResponse.proposed_actions
      { currentState := conversationState.fsm_state
        cart := conversationState.cart_json }
    let validationErrors :=
      (split.rejected.filterMap (fun r => r.error)).filter (fun e => e ≠ "")
    -- Step 7: execute valid actions
    let executionResult := executeActions
      { actions := split.valid
        current_state := conversationState
        product_catalog := env.products }
    let finalState := executionResult.new_state.fsm_state
    let previousState := conversationState.fsm_state
    -- Steps 8-9: persist state and action history
    let saved : SavedConversationFields :=
      { fsm_state := finalState
        cart_json := executionResult.new_state.cart_json
        human_override := executionResult.new_state.human_override
        human_override_at := executionResult.new_state.human_override_at
        last_llm_response := llmResponse }
    let history := executionResult.executed_actions.map (fun action =>
      { conversation_id := env.conversation_id
        action_type := action.type
        action_payload := action.params.getD {}
        validated := true
        executed := true
        fsm_state_before := previousState
        fsm_state_after := finalState : ActionHistoryRecord })
    -- Step 10: build the final response
    { result := buildResponse
        { human_override := executionResult.new_state.human_override
          response_text := some llmResponse.response_text
          new_state := finalState
          executed_actions := executionResult.executed_actions
          validation_errors := validationErrors }
      llmCalled := true
      savedState := some saved
      actionHistory := history }

-- ===========================================================================
-- Cart consistency invariant (claim C1)
-- ===========================================================================

/-- The cart consistency invariant of the spec: the total is the sum of the
line subtotals, and each line subtotal is quantity times unit price. -/
def cartInvariant (c : Cart) : Prop :=
  c.total = sumSubtotals c.items
  ∧ ∀ item ∈ c.items, item.subtotal = item.quantity * item.unit_price

lemma cartInvariant_default : cartInvariant DEFAULT_CART :=
  ⟨rfl, fun _ h => absurd h (List.not_mem_nil _)⟩

lemma executeSingleAction_cartInvariant (a : ProposedAction)
    (s : ConversationState) (catalog : List Product)
    (h : cartInvariant s.cart_json) :
    cartInvariant (executeSingleAction a s catalog).state.cart_json := by
  unfold executeSingleAction
  split
  · -- ADD_TO_CART
    unfold executeAddToCart
    split
    · split
      · exact h
      · split
        · exact h
        · refine ⟨rfl, ?_⟩
          intro item hmem
          dsimp only at hmem
          split at hmem
          · split at hmem
            · rcases List.mem_or_eq_of_mem_set hmem with hin | rfl
              · exact h.2 item hin
              · rfl
            · exact h.2 item hmem
          · rcases List.mem_append.mp hmem with hin | hnew
            · exact h.2 item hin
            · rcases List.mem_singleton.mp hnew with rfl
              rfl
    · exact h
  · -- UPDATE_QUANTITY
    unfold executeUpdateQuantity
    split
    · split
      · exact h
      · split
        · exact h
        · refine ⟨rfl, ?_⟩
          intro item hmem
          dsimp only at hmem
          split at hmem
          · rcases List.mem_or_eq_of_mem_set hmem with hin | rfl
            · exact h.2 item hin
            · rfl
          · exact h.2 item hmem
    · exact h
  · -- REMOVE_ITEM
    unfold executeRemoveItem
    split
    · exact h
    · split
      · exact h
      · split
        · exact h
        · exact ⟨rfl, fun item hmem => h.2 item (List.mem_of_mem_eraseIdx hmem)⟩
  · -- CLEAR_CART
    exact cartInvariant_default
  · -- REVIEW_ORDER
    unfold executeReviewOrder
    split
    · exact h
    · exact h
  · -- CONFIRM_ORDER
    unfold executeConfirmOrder
    split
    · exact h
    · exact h
  · -- CANCEL_ORDER
    exact cartInvariant_default
  · -- ESCALATE
    exact h
  · exact h
  · exact h
  · exact h
  · exact h
  · exact h

lemma execFold_cartInvariant (catalog : List Product) :
    ∀ (actions : List ProposedAction) (acc : ConversationState × List ProposedAction),
      cartInvariant acc.1.cart_json →
      cartInvariant ((actions.foldl (execStep catalog) acc).1.cart_json) := by
  intro actions
  induction actions with
  | nil => intro acc h; exact h
  | cons a rest ih =>
      intro acc h
      exact ih _ (executeSingleAction_cartInvariant a acc.1 catalog h)

/-- C1: for every starting state whose cart satisfies the consistency
invariant (total = Σ subtotals, subtotal = quantity * unit price) and every
action sequence applied by `executeActions`, the resulting cart satisfies
the invariant again. -/
theorem C1_cart_invariant_preserved (actions : List ProposedAction)
    (s : ConversationState) (catalog : List Product)
    (h : cartInvariant s.cart_json) :
    cartInvariant ((executeActions
      { actions := actions, current_state := s, product_catalog := catalog }).new_state.cart_json) :=
  execFold_cartInvariant catalog actions (s, []) h

/-- Witness for C1 at a concrete input: the default state, one product and
an ADD_TO_CART action. -/
theorem C1_witness :
    cartInvariant ((executeActions
      { actions := [{ type := "ADD_TO_CART",
                      params := some { product_id := some "P1", quantity := some 2 } }]
        current_state := DEFAULT_CONVERSATION_STATE
        product_catalog := [{ id := "P1", name := "Jugo", price := 30, active := true }] }).new_state.cart_json) :=
  C1_cart_invariant_preserved _ _ _ cartInvariant_default

-- ===========================================================================
-- HUMAN_TAKEOVER stickiness (claim C2)
-- ===========================================================================

/-- A conversation state sitting in HUMAN_TAKEOVER. -/
def htState : ConversationState :=
  { fsm_state := .HUMAN_TAKEOVER
    human_override := true
    human_override_at := some currentTimestamp
    cart_json := DEFAULT_CART }

/-- A CART_OPEN state with one cart line, used for the validated-batch
scenario. -/
def cartOpenState : ConversationState :=
  { fsm_state := .CART_OPEN
    human_override := false
    cart_json :=
      { items := [{ product_id := "P1", name := "Jugo", quantity := 1,
                    unit_price := 10, subtotal := 10 }]
        total := 10
        currency := "BOB" } }

/-- C2: evaluation of the code at the failing input.  A CANCEL_ORDER action
fed to `executeActions` in state HUMAN_TAKEOVER is executed and moves the
machine to IDLE, so HUMAN_TAKEOVER is not sticky under `executeActions`;
moreover the batch [ESCALATE, CANCEL_ORDER], validated as a whole against a
CART_OPEN state (as the pipeline validates batches), is fully accepted by
`getValidActions`, passes through HUMAN_TAKEOVER after the ESCALATE step,
and still ends in IDLE. -/
theorem C2_human_takeover_not_sticky :
    htState.fsm_state = FsmState.HUMAN_TAKEOVER
    ∧ (executeActions
        { actions := [{ type := "CANCEL_ORDER" }]
          current_state := htState
          product_catalog := [] }).new_state.fsm_state = FsmState.IDLE
    ∧ (executeActions
        { actions := [{ type := "CANCEL_ORDER" }]
          current_state := htState
          product_catalog := [] }).executed_actions = [{ type := "CANCEL_ORDER" }]
    ∧ (getValidActions [{ type := "ESCALATE" }, { type := "CANCEL_ORDER" }]
        { currentState := cartOpenState.fsm_state
          cart := cartOpenState.cart_json }).valid
        = [{ type := "ESCALATE" }, { type := "CANCEL_ORDER" }]
    ∧ (executeSingleAction { type := "ESCALATE" } cartOpenState []).state.fsm_state
        = FsmState.HUMAN_TAKEOVER
    ∧ (executeActions
        { actions := [{ type := "ESCALATE" }, { type := "CANCEL_ORDER" }]
          current_state := cartOpenState
          product_catalog := [] }).new_state.fsm_state = FsmState.IDLE := by
  refine ⟨rfl, rfl, rfl, ?_, rfl, rfl⟩
  decide

-- ===========================================================================
-- Human-override silence (claim C4)
-- ===========================================================================

/-- C4: when the loaded conversation state has `human_override = true`, the
pipeline returns handled with no response text and no executed actions, the
LLM orchestrator is never reached, and nothing is persisted. -/
theorem C4_human_override_silence (env : ProcessMessageEnv)
    (parse : String → Option Json) (rawResult : Except Unit Json)
    (h : env.conversationState.human_override = true) :
    (processMessage env parse rawResult).result.handled = true
    ∧ (processMessage env parse rawResult).result.response_text = none
    ∧ (processMessage env parse rawResult).result.executed_actions = some []
    ∧ (processMessage env parse rawResult).result.new_state
        = some env.conversationState.fsm_state
    ∧ (processMessage env parse rawResult).llmCalled = false
    ∧ (processMessage env parse rawResult).savedState = none := by
  unfold processMessage
  simp only [h, if_true]
  refine ⟨?_, ?_, ?_, ?_, ?_, ?_⟩ <;> first
  | rfl
  | trivial

/-- An environment whose loaded state is under human override. -/
def overrideEnv : ProcessMessageEnv :=
  { conversation_id := "c1"
    customer_message := "hola"
    wa_phone := "+59170000000"
    tenant_id := "t1"
    conversationState := { htState with fsm_state := .HUMAN_TAKEOVER }
    products := []
    recentHistory := [] }

/-- Witness for C4 at a concrete environment. -/
theorem C4_witness :
    (processMessage overrideEnv (fun _ => none) (Except.error ())).result.handled = true
    ∧ (processMessage overrideEnv (fun _ => none) (Except.error ())).result.response_text = none
    ∧ (processMessage overrideEnv (fun _ => none) (Except.error ())).result.executed_actions = some []
    ∧ (processMessage overrideEnv (fun _ => none) (Except.error ())).result.new_state
        = some overrideEnv.conversationState.fsm_state
    ∧ (processMessage overrideEnv (fun _ => none) (Except.error ())).llmCalled = false
    ∧ (processMessage overrideEnv (fun _ => none) (Except.error ())).savedState = none :=
  C4_human_override_silence overrideEnv (fun _ => none) (Except.error ()) rfl

-- ===========================================================================
-- Prohibited actions rejected first (claim C6)
-- ===========================================================================

/-- C6: a proposed action whose type is prohibited is rejected with the
prohibition reason for every current state and cart — the result does not
depend on the context or parameters at all, so the decision precedes every
state, parameter and cart check. -/
theorem C6_prohibited_rejected_first (a : ProposedAction)
    (ctx : ValidationContext) (h : a.type ∈ PROHIBITED_ACTIONS) :
    validateAction a ctx =
      { valid := false
        error := some ("Action \"" ++ a.type ++ "\" is prohibited")
        action := a } := by
  unfold validateAction
  have hp : isProhibitedAction a.type = true := by
    unfold isProhibitedAction
    exact List.elem_eq_true_of_mem h
  simp only [hp, if_true]

/-- Witness for C6: MODIFY_PRICE is rejected as prohibited in a concrete
context. -/
theorem C6_witness :
    validateAction { type := "MODIFY_PRICE" }
      { currentState := .CHECKOUT, cart := DEFAULT_CART } =
      { valid := false
        error := some ("Action \"" ++ "MODIFY_PRICE" ++ "\" is prohibited")
        action := { type := "MODIFY_PRICE" } } :=
  C6_prohibited_rejected_first _ _ (by decide)

-- ===========================================================================
-- Response-builder handled rule (claim C8)
-- ===========================================================================

/-- C8 counterexample: with `human_override = false` and the non-empty
response text `" "` (a single space), `buildResponse` returns
`handled = false`, contradicting the claim that any non-empty string is
handled and carried through. -/
theorem C8_counterexample :
    (" " : String) ≠ ""
    ∧ (buildResponse
        { human_override := false
          response_text := some " "
          new_state := .IDLE
          executed_actions := []
          validation_errors := [] }).handled = false
    ∧ (buildResponse
        { human_override := false
          response_text := some " "
          new_state := .IDLE
          executed_actions := []
          validation_errors := [] }).response_text = none := by
  refine ⟨by decide, ?_, ?_⟩ <;> decide

/-- C8 (amended): with `human_override = false`, a response text that is
non-empty after trimming whitespace yields `handled = true` carrying
exactly that text; a missing, empty or whitespace-only text yields
`handled = false`; and non-empty validation error lists are attached in
every branch. -/
theorem C8_handled_rule (input : BuildResponseInput)
    (h : input.human_override = false) :
    (∀ rt, input.response_text = some rt → 0 < (strTrim rt).length →
      buildResponse input =
        { handled := true
          response_text := some rt
          new_state := some input.new_state
          executed_actions := some input.executed_actions
          validation_errors :=
            if input.validation_errors.length > 0
            then some input.validation_errors else none })
    ∧ ((input.response_text = none
        ∨ ∃ rt, input.response_text = some rt ∧ (strTrim rt).length = 0) →
      (buildResponse input).handled = false
      ∧ (buildResponse input).response_text = none)
    ∧ (input.validation_errors ≠ [] →
      (buildResponse input).validation_errors = some input.validation_errors) := by
  have hbr : buildResponse input =
      (let ve : Option (List String) :=
        if input.validation_errors.length > 0 then some input.validation_errors
        else none
      match input.response_text with
      | some response_text =>
          if response_text ≠ "" ∧ 0 < (strTrim response_text).length then
            { handled := true
              response_text := some response_text
              new_state := some input.new_state
              executed_actions := some input.executed_actions
              validation_errors := ve }
          else
            { handled := false
              response_text := none
              new_state := some input.new_state
              executed_actions := some input.executed_actions
              validation_errors := ve }
      | none =>
          { handled := false
            response_text := none
            new_state := some input.new_state
            executed_actions := some input.executed_actions
            validation_errors := ve }) := by
    unfold buildResponse
    rw [h]
    rfl
  refine ⟨?_, ?_, ?_⟩
  · intro rt hrt htrim
    have hne : rt ≠ "" := by
      intro hempty
      rw [hempty] at htrim
      simp [strTrim] at htrim
    rw [hbr, hrt]
    simp only []
    rw [if_pos ⟨hne, htrim⟩]
  · intro hcase
    rcases hcase with hnone | ⟨rt, hrt, htrim⟩
    · rw [hbr, hnone]
      exact ⟨rfl, rfl⟩
    · rw [hbr, hrt]
      simp only []
      rw [if_neg]
      · exact ⟨rfl, rfl⟩
      · rintro ⟨-, hpos⟩
        omega
  · intro hne
    have hlen : input.validation_errors.length > 0 := by
      cases hl : input.validation_errors with
      | nil => exact absurd hl hne
      | cons x xs => simp
    rw [hbr]
    simp only [hlen, if_true]
    cases input.response_text with
    | none => rfl
    | some rt =>
        simp only []
        by_cases hc : rt ≠ "" ∧ 0 < (strTrim rt).length
        · rw [if_pos hc]
        · rw [if_neg hc]

/-- Witness for C8 at a concrete input: a real text with a validation
error attached. -/
theorem C8_witness :
    buildResponse
      { human_override := false
        response_text := some "Hola!"
        new_state := .BROWSING
        executed_actions := []
        validation_errors := ["Cart is empty"] } =
      { handled := true
        response_text := some "Hola!"
        new_state := some FsmState.BROWSING
        executed_actions := some []
        validation_errors :=
          if (["Cart is empty"] : List String).length > 0
          then some ["Cart is empty"] else none } :=
  (C8_handled_rule _ rfl).1 "Hola!" rfl (by decide)

-- ===========================================================================
-- Generation-contract fallback (claim C3)
-- ===========================================================================

/-- `runLlmOrchestrator` factored through the parse outcome. -/
lemma runLlmOrchestrator_eq (parse : String → Option Json)
    (input : LlmContextInput) (rawResult : Except Unit Json) :
    runLlmOrchestrator parse input rawResult =
      match rawToJson parse rawResult with
      | none => createFallbackResponse input.current_state
      | some parsed =>
          match validateLlmResponse parsed with
          | none => createFallbackResponse input.current_state
          | some r =>
              match r.suggested_state with
              | none => { r with suggested_state := some input.current_state }
              | some _ => r := by
  unfold runLlmOrchestrator rawToJson
  cases rawResult with
  | error e => rfl
  | ok v =>
      cases v <;> rfl

/-- The contract violations enumerated by the spec, at the level of the
parsed JSON value. -/
def violatesLlmContract (v : Json) : Prop :=
  (∀ fields, v ≠ .obj fields)
  ∨ (∃ fields, v = .obj fields ∧
      ((∀ acts, getField fields "proposed_actions" ≠ some (.arr acts))
       ∨ (∃ acts, getField fields "proposed_actions" = some (.arr acts) ∧
           (acts.length = 0
            ∨ acts.length > MAX_ACTIONS
            ∨ (∃ a ∈ acts, isValidProposedAction a = false)
            ∨ (∀ rt, getField fields "response_text" ≠ some (.str rt))
            ∨ (∃ rt, getField fields "response_text" = some (.str rt)
                ∧ rt.length > MAX_RESPONSE_TEXT_LENGTH)
            ∨ (∃ sv, getField fields "suggested_state" = some sv
                ∧ isValidFsmState sv = false)))))


lemma validateLlmResponse_none_of_violates (v : Json)
    (h : violatesLlmContract v) : validateLlmResponse v = none := by
  rcases h with hobj | ⟨fields, rfl, hrest⟩
  · cases v with
    | obj fields => exact absurd rfl (hobj fields)
    | null => rfl
    | bool b => rfl
    | num q => rfl
    | str s => rfl
    | arr xs => rfl
  · cases hpa : getField fields "proposed_actions" with
    | none =>
        rcases hrest with hnone | ⟨acts, hacts, -⟩
        · simp [validateLlmResponse, hpa]
        · rw [hpa] at hacts; exact absurd hacts (by simp)
    | some pa =>
        cases pa with
        | arr acts =>
            rcases hrest with hnoarr | ⟨acts', hacts', hbad⟩
            · exact absurd hpa (hnoarr acts)
            · rw [hpa] at hacts'
              have hae : acts' = acts := by
                injection hacts' with h1
                injection h1 with h2
                exact h2.symm
              subst hae
              simp only [validateLlmResponse, hpa]
              rcases hbad with hzero | hbig | ⟨a, ha, hinvalid⟩ | hnort | ⟨rt, hrt, hlong⟩ | ⟨sv, hsv, hbadstate⟩
              · rw [if_pos (Or.inl hzero)]
              · rw [if_pos (Or.inr hbig)]
              · split
                · rfl
                · rw [if_pos ?_]
                  intro hall
                  rw [List.all_eq_true] at hall
                  have := hall a ha
                  rw [hinvalid] at this
                  exact absurd this (by simp)
              · split
                · rfl
                · split
                  · rfl
                  · cases hrt : getField fields "response_text" with
                    | none => rfl
                    | some rtv =>
                        cases rtv with
                        | str s => exact absurd hrt (hnort s)
                        | null => rfl
                        | bool b => rfl
                        | num q => rfl
                        | arr xs => rfl
                        | obj o => rfl
              · split
                · rfl
                · split
                  · rfl
                  · rw [hrt]
                    simp only []
                    rw [if_pos hlong]
              · split
                · rfl
                · split
                  · rfl
                  · cases hrt : getField fields "response_text" with
                    | none => rfl
                    | some rtv =>
                        cases rtv with
                        | null => rfl
                        | bool b => rfl
                        | num q => rfl
                        | arr xs => rfl
                        | obj o => rfl
                        | str s =>
                            simp only []
                            split
                            · rfl
                            · rw [hsv]
                              cases sv with
                              | str ss =>
                                  have hnone : fsmStateOfString ss = none := by
                                    have hs : (fsmStateOfString ss).isSome = false := hbadstate
                                    exact Option.not_isSome_iff_eq_none.mp (by simp [hs])
                                  simp only []
                                  rw [hnone]
                              | null => rfl
                              | bool b => rfl
                              | num q => rfl
                              | arr xs => rfl
                              | obj o => rfl
        | null =>
            rcases hrest with hnoarr | ⟨acts', hacts', -⟩
            · simp [validateLlmResponse, hpa]
            · rw [hpa] at hacts'; exact absurd hacts' (by simp)
        | bool b =>
            rcases hrest with hnoarr | ⟨acts', hacts', -⟩
            · simp [validateLlmResponse, hpa]
            · rw [hpa] at hacts'; exact absurd hacts' (by simp)
        | num q =>
            rcases hrest with hnoarr | ⟨acts', hacts', -⟩
            · simp [validateLlmResponse, hpa]
            · rw [hpa] at hacts'; exact absurd hacts' (by simp)
        | str s =>
            rcases hrest with hnoarr | ⟨acts', hacts', -⟩
            · simp [validateLlmResponse, hpa]
            · rw [hpa] at hacts'; exact absurd hacts' (by simp)
        | obj o =>
            rcases hrest with hnoarr | ⟨acts', hacts', -⟩
            · simp [validateLlmResponse, hpa]
            · rw [hpa] at hacts'; exact absurd hacts' (by simp)

/-- C3: any contract-violating generation outcome — a thrown call, an
unparsable string, or a parsed value violating the schema — makes
`runLlmOrchestrator` return exactly the fallback (no actions, the fixed
apology, suggested state = current state); and an otherwise valid output
with no suggested state gets the current state filled in. -/
theorem C3_contract_fallback (parse : String → Option Json)
    (input : LlmContextInput) (rawResult : Except Unit Json) :
    ((rawResult = .error ()
      ∨ (∃ s, rawResult = .ok (.str s) ∧ parseJsonResponse parse s = none)
      ∨ (∃ v, rawToJson parse rawResult = some v ∧ violatesLlmContract v)) →
      runLlmOrchestrator parse input rawResult
        = createFallbackResponse input.current_state)
    ∧ (∀ v r, rawToJson parse rawResult = some v →
        validateLlmResponse v = some r → r.suggested_state = none →
        runLlmOrchestrator parse input rawResult
          = { r with suggested_state := some input.current_state })
    ∧ createFallbackResponse input.current_state =
        { proposed_actions := []
          response_text := FALLBACK_RESPONSE_TEXT
          suggested_state := some input.current_state } := by
  refine ⟨?_, ?_, rfl⟩
  · intro hviol
    rw [runLlmOrchestrator_eq]
    rcases hviol with herr | ⟨s, hs, hparse⟩ | ⟨v, hv, hcontract⟩
    · rw [herr]
      rfl
    · rw [hs]
      show (match rawToJson parse (.ok (.str s)) with
        | none => createFallbackResponse input.current_state
        | some parsed =>
            match validateLlmResponse parsed with
            | none => createFallbackResponse input.current_state
            | some r =>
                match r.suggested_state with
                | none => { r with suggested_state := some input.current_state }
                | some _ => r) = createFallbackResponse input.current_state
      have : rawToJson parse (.ok (.str s)) = none := hparse
      rw [this]
    · rw [hv]
      simp only []
      rw [validateLlmResponse_none_of_violates v hcontract]
  · intro v r hv hval hsugg
    rw [runLlmOrchestrator_eq, hv]
    simp only []
    rw [hval]
    simp only []
    rw [hsugg]

/-- Witness for C3: a thrown LLM call at a concrete context yields the
fallback. -/
theorem C3_witness :
    runLlmOrchestrator (fun _ => none)
      { current_state := .BROWSING
        detected_events := []
        cart := DEFAULT_CART
        customer_message := "hola"
        recent_history := []
        product_catalog := [] }
      (Except.error ())
      = createFallbackResponse FsmState.BROWSING :=
  (C3_contract_fallback (fun _ => none) _ (Except.error ())).1 (Or.inl rfl)

-- ===========================================================================
-- Quantity bound validation (claim C7)
-- ===========================================================================

/-- First character of a string, used to separate the disjoint families of
validation error messages. -/
def firstChar (s : String) : Option Char :=
  s.data.head?

lemma firstChar_append_left (a b : String) (c : Char)
    (h : firstChar a = some c) : firstChar (a ++ b) = some c := by
  unfold firstChar at h ⊢
  rw [String.data_append]
  cases ha : a.data with
  | nil => rw [ha] at h; exact absurd h (by simp)
  | cons x t => rw [ha] at h; simp at h; simp [h]

/-- The three rejection messages `validateQuantity` can produce. -/
def isQuantityErrorMsg (e : String) : Prop :=
  e = "quantity is required"
  ∨ (∃ q : ℚ, e = "quantity must be an integer, got: " ++ toString q)
  ∨ (∃ q : ℚ, e = "quantity must be between 1 and 100, got: " ++ toString q)

lemma firstChar_of_quantityErrorMsg (e : String) (h : isQuantityErrorMsg e) :
    firstChar e = some 'q' := by
  rcases h with rfl | ⟨q, rfl⟩ | ⟨q, rfl⟩
  · rfl
  · exact firstChar_append_left _ _ 'q' rfl
  · exact firstChar_append_left _ _ 'q' rfl

lemma firstChar_of_validateState (t : String) (cur : FsmState)
    (vs : ValidStates) (e : String) (h : validateState t cur vs = some e) :
    firstChar e = some 'A' := by
  cases vs with
  | all => simp [validateState] at h
  | only states =>
      simp only [validateState] at h
      split at h
      · exact absurd h (by simp)
      · injection h with h1
        rw [← h1]
        exact firstChar_append_left _ _ 'A'
          (firstChar_append_left _ _ 'A'
            (firstChar_append_left _ _ 'A'
              (firstChar_append_left _ _ 'A' rfl)))

lemma firstChar_of_validateProductId (pid : Option String) (e : String)
    (h : validateProductId pid = some e) : firstChar e = some 'p' := by
  cases pid with
  | none =>
      simp only [validateProductId] at h
      injection h with h1; rw [← h1]; rfl
  | some p =>
      simp only [validateProductId] at h
      split at h
      · injection h with h1; rw [← h1]; rfl
      · exact absurd h (by simp)

lemma firstChar_of_validateItemInCart (pid : Option String) (cart : Cart)
    (e : String) (h : validateItemInCart pid cart = some e) :
    firstChar e = some 'p' ∨ firstChar e = some 'I' := by
  cases pid with
  | none =>
      simp only [validateItemInCart] at h
      injection h with h1; rw [← h1]; exact Or.inl rfl
  | some p =>
      simp only [validateItemInCart] at h
      split at h
      · injection h with h1; rw [← h1]; exact Or.inl rfl
      · split at h
        · exact absurd h (by simp)
        · injection h with h1
          rw [← h1]
          exact Or.inr (firstChar_append_left _ _ 'I'
            (firstChar_append_left _ _ 'I' rfl))

lemma firstChar_of_validateCartNotEmpty (cart : Cart) (e : String)
    (h : validateCartNotEmpty cart = some e) : firstChar e = some 'C' := by
  unfold validateCartNotEmpty at h
  split at h
  · injection h with h1; rw [← h1]; rfl
  · exact absurd h (by simp)

/-- Unfolding of `validateAction` for an ADD_TO_CART proposal. -/
lemma validateAction_add_to_cart (p : Option ActionParams)
    (ctx : ValidationContext) :
    validateAction { type := "ADD_TO_CART", params := p } ctx =
      (match validateState "ADD_TO_CART" ctx.currentState
          (ValidStates.only [.IDLE, .BROWSING, .CART_OPEN]) with
       | some stateError =>
           { valid := false, error := some stateError,
             action := { type := "ADD_TO_CART", params := p } }
       | none =>
         match validateProductId (p.bind (fun q => q.product_id)) with
         | some productError =>
             { valid := false, error := some productError,
               action := { type := "ADD_TO_CART", params := p } }
         | none =>
           match validateQuantity (p.bind (fun q => q.quantity)) with
           | some quantityError =>
               { valid := false, error := some quantityError,
                 action := { type := "ADD_TO_CART", params := p } }
           | none =>
               { valid := true,
                 action := { type := "ADD_TO_CART", params := p } }) := rfl

/-- Unfolding of `validateAction` for an UPDATE_QUANTITY proposal. -/
lemma validateAction_update_quantity (p : Option ActionParams)
    (ctx : ValidationContext) :
    validateAction { type := "UPDATE_QUANTITY", params := p } ctx =
      (match validateState "UPDATE_QUANTITY" ctx.currentState
          (ValidStates.only [.CART_OPEN]) with
       | some stateError =>
           { valid := false, error := some stateError,
             action := { type := "UPDATE_QUANTITY", params := p } }
       | none =>
         match validateProductId (p.bind (fun q => q.product_id)) with
         | some productError =>
             { valid := false, error := some productError,
               action := { type := "UPDATE_QUANTITY", params := p } }
         | none =>
           match validateQuantity (p.bind (fun q => q.quantity)) with
           | some quantityError =>
               { valid := false, error := some quantityError,
                 action := { type := "UPDATE_QUANTITY", params := p } }
           | none =>
             match validateItemInCart (p.bind (fun q => q.product_id)) ctx.cart with
             | some itemError =>
                 { valid := false, error := some itemError,
                   action := { type := "UPDATE_QUANTITY", params := p } }
             | none =>
                 { valid := true,
                   action := { type := "UPDATE_QUANTITY", params := p } }) := rfl

lemma validateQuantity_some_of_bad (q : Option ℚ)
    (h : q = none ∨ ∃ r, q = some r ∧ (r.den ≠ 1 ∨ r < QUANTITY_MIN ∨ r > QUANTITY_MAX)) :
    ∃ e, validateQuantity q = some e ∧ isQuantityErrorMsg e := by
  rcases h with rfl | ⟨r, rfl, hbad⟩
  · exact ⟨_, rfl, Or.inl rfl⟩
  · simp only [validateQuantity]
    by_cases hden : r.den ≠ 1
    · rw [if_pos hden]
      exact ⟨_, rfl, Or.inr (Or.inl ⟨r, rfl⟩)⟩
    · rw [if_neg hden]
      have hbounds : r < QUANTITY_MIN ∨ r > QUANTITY_MAX := by
        rcases hbad with hd | hb
        · exact absurd hd hden
        · exact hb
      rw [if_pos hbounds]
      exact ⟨_, rfl, Or.inr (Or.inr ⟨r, rfl⟩)⟩

lemma validateQuantity_none_of_good (q : ℚ)
    (h : q.den = 1 ∧ QUANTITY_MIN ≤ q ∧ q ≤ QUANTITY_MAX) :
    validateQuantity (some q) = none := by
  simp only [validateQuantity]
  rw [if_neg (by simp [h.1]), if_neg]
  rintro (hlt | hgt)
  · exact absurd h.2.1 (not_le.mpr hlt)
  · exact absurd h.2.2 (not_le.mpr hgt)

/-- C7: for ADD_TO_CART and UPDATE_QUANTITY proposals, a quantity parameter
that is absent, non-integer, below 1 or above 100 makes `validateAction`
reject (with a reason) in every state and cart; and an integer quantity in
[1,100] never produces a quantity-related rejection reason. -/
theorem C7_quantity_validation (a : ProposedAction) (ctx : ValidationContext)
    (htype : a.type = "ADD_TO_CART" ∨ a.type = "UPDATE_QUANTITY") :
    ((a.quantityParam = none
      ∨ ∃ r, a.quantityParam = some r
          ∧ (r.den ≠ 1 ∨ r < QUANTITY_MIN ∨ r > QUANTITY_MAX)) →
      (validateAction a ctx).valid = false ∧ (validateAction a ctx).error ≠ none)
    ∧ ((∃ r, a.quantityParam = some r
          ∧ r.den = 1 ∧ QUANTITY_MIN ≤ r ∧ r ≤ QUANTITY_MAX) →
      ∀ e, (validateAction a ctx).error = some e → ¬ isQuantityErrorMsg e) := by
  obtain ⟨t, p⟩ := a
  have hq : ProposedAction.quantityParam { type := t, params := p }
      = p.bind (fun q => q.quantity) := rfl
  rcases htype with ht | ht <;> cases ht
  · rw [hq]
    rw [validateAction_add_to_cart p ctx]
    constructor
    · intro hbad
      cases hst : validateState "ADD_TO_CART" ctx.currentState
          (ValidStates.only [.IDLE, .BROWSING, .CART_OPEN]) with
      | some e => simp
      | none =>
          simp only []
          cases hpid : validateProductId (p.bind (fun q => q.product_id)) with
          | some e => simp
          | none =>
              simp only []
              obtain ⟨e, he, -⟩ := validateQuantity_some_of_bad _ hbad
              rw [he]
              simp
    · intro hgood e herr hqmsg
      obtain ⟨r, hr, hgood'⟩ := hgood
      have hfq : firstChar e = some 'q' := firstChar_of_quantityErrorMsg e hqmsg
      cases hst : validateState "ADD_TO_CART" ctx.currentState
          (ValidStates.only [.IDLE, .BROWSING, .CART_OPEN]) with
      | some se =>
          rw [hst] at herr
          simp only [] at herr
          injection herr with h1
          rw [h1] at hst
          have := firstChar_of_validateState _ _ _ _ hst
          rw [this] at hfq
          exact absurd hfq (by decide)
      | none =>
          rw [hst] at herr
          simp only [] at herr
          cases hpid : validateProductId (p.bind (fun q => q.product_id)) with
          | some pe =>
              rw [hpid] at herr
              simp only [] at herr
              injection herr with h1
              rw [h1] at hpid
              have := firstChar_of_validateProductId _ _ hpid
              rw [this] at hfq
              exact absurd hfq (by decide)
          | none =>
              rw [hpid] at herr
              simp only [] at herr
              rw [hr, validateQuantity_none_of_good r hgood'] at herr
              simp at herr
  · rw [hq]
    rw [validateAction_update_quantity p ctx]
    constructor
    · intro hbad
      cases hst : validateState "UPDATE_QUANTITY" ctx.currentState
          (ValidStates.only [.CART_OPEN]) with
      | some e => simp
      | none =>
          simp only []
          cases hpid : validateProductId (p.bind (fun q => q.product_id)) with
          | some e => simp
          | none =>
              simp only []
              obtain ⟨e, he, -⟩ := validateQuantity_some_of_bad _ hbad
              rw [he]
              simp
    · intro hgood e herr hqmsg
      obtain ⟨r, hr, hgood'⟩ := hgood
      have hfq : firstChar e = some 'q' := firstChar_of_quantityErrorMsg e hqmsg
      cases hst : validateState "UPDATE_QUANTITY" ctx.currentState
          (ValidStates.only [.CART_OPEN]) with
      | some se =>
          rw [hst] at herr
          simp only [] at herr
          injection herr with h1
          rw [h1] at hst
          have := firstChar_of_validateState _ _ _ _ hst
          rw [this] at hfq
          exact absurd hfq (by decide)
      | none =>
          rw [hst] at herr
          simp only [] at herr
          cases hpid : validateProductId (p.bind (fun q => q.product_id)) with
          | some pe =>
              rw [hpid] at herr
              simp only [] at herr
              injection herr with h1
              rw [h1] at hpid
              have := firstChar_of_validateProductId _ _ hpid
              rw [this] at hfq
              exact absurd hfq (by decide)
          | none =>
              rw [hpid] at herr
              simp only [] at herr
              rw [hr, validateQuantity_none_of_good r hgood'] at herr
              simp only [] at herr
              cases hit : validateItemInCart (p.bind (fun q => q.product_id)) ctx.cart with
              | some ie =>
                  rw [hit] at herr
                  simp only [] at herr
                  injection herr with h1
                  rw [h1] at hit
                  rcases firstChar_of_validateItemInCart _ _ _ hit with hI | hI <;>
                    · rw [hI] at hfq
                      exact absurd hfq (by decide)
              | none =>
                  rw [hit] at herr
                  simp at herr

/-- Witness for C7: quantity 0 on ADD_TO_CART is rejected in a concrete
context. -/
theorem C7_witness :
    (validateAction
      { type := "ADD_TO_CART"
        params := some { product_id := some "P1", quantity := some 0 } }
      { currentState := .BROWSING, cart := DEFAULT_CART }).valid = false
    ∧ (validateAction
      { type := "ADD_TO_CART"
        params := some { product_id := some "P1", quantity := some 0 } }
      { currentState := .BROWSING, cart := DEFAULT_CART }).error ≠ none :=
  (C7_quantity_validation _ _ (Or.inl rfl)).1
    (Or.inr ⟨0, rfl, Or.inr (Or.inl (by decide))⟩)

-- ===========================================================================
-- Per-item quantity bound (claim C5)
-- ===========================================================================

/-- Every cart line quantity is in the documented range [1,100]. -/
def cartQtyBounds (c : Cart) : Prop :=
  ∀ it ∈ c.items, 1 ≤ it.quantity ∧ it.quantity ≤ 100

/-- A CART_OPEN state holding 100 units of P1. -/
def c5State : ConversationState :=
  { fsm_state := .CART_OPEN
    human_override := false
    cart_json :=
      { items := [{ product_id := "P1", name := "Jugo", quantity := 100,
                    unit_price := 10, subtotal := 1000 }]
        total := 1000
        currency := "BOB" } }

/-- A validator-accepted proposal adding 100 more units of P1. -/
def c5Add : ProposedAction :=
  { type := "ADD_TO_CART"
    params := some { product_id := some "P1", quantity := some 100 } }

/-- C5 counterexample: starting from a cart whose only line has quantity
100 (within bounds), the accepted ADD_TO_CART merge yields quantity 200,
outside [1,100]. -/
theorem C5_counterexample :
    cartQtyBounds c5State.cart_json
    ∧ (validateAction c5Add
        { currentState := c5State.fsm_state, cart := c5State.cart_json }).valid = true
    ∧ ((executeActions
        { actions := [c5Add]
          current_state := c5State
          product_catalog := [{ id := "P1", name := "Jugo", price := 10, active := true }] }).new_state.cart_json.items.map
        (fun it => it.quantity)) = [200] := by
  refine ⟨?_, by decide, ?_⟩
  · intro it hmem
    simp only [c5State, List.mem_singleton] at hmem
    rw [hmem]
    exact ⟨by norm_num, by norm_num⟩
  · show ((executeActions
        { actions := [c5Add]
          current_state := c5State
          product_catalog := [{ id := "P1", name := "Jugo", price := 10, active := true }] }).new_state.cart_json.items.map
        (fun it => it.quantity)) = [200]
    norm_num [executeActions, execStep, executeSingleAction, executeAddToCart,
      c5Add, c5State, ProposedAction.productId, ProposedAction.quantityParam,
      sumSubtotals, transitionOnAddToCart]
    rw [if_neg (by decide : ¬(("P1" : String) = ""))]
    rfl

lemma validateQuantity_none_inv (q : Option ℚ) (h : validateQuantity q = none) :
    ∃ r, q = some r ∧ r.den = 1 ∧ QUANTITY_MIN ≤ r ∧ r ≤ QUANTITY_MAX := by
  cases q with
  | none => simp [validateQuantity] at h
  | some r =>
      simp only [validateQuantity] at h
      split at h
      · exact absurd h (by simp)
      · split at h
        · exact absurd h (by simp)
        · rename_i hden hbounds
          push_neg at hbounds
          exact ⟨r, rfl, by simpa using hden, hbounds.1, hbounds.2⟩

lemma validateAction_valid_qty (a : ProposedAction) (ctx : ValidationContext)
    (ht : a.type = "ADD_TO_CART" ∨ a.type = "UPDATE_QUANTITY")
    (hv : (validateAction a ctx).valid = true) :
    ∃ q, a.quantityParam = some q ∧ q.den = 1
      ∧ QUANTITY_MIN ≤ q ∧ q ≤ QUANTITY_MAX := by
  obtain ⟨t, p⟩ := a
  have hqp : ProposedAction.quantityParam { type := t, params := p }
      = p.bind (fun q => q.quantity) := rfl
  rcases ht with ht | ht <;> cases ht
  · rw [validateAction_add_to_cart p ctx] at hv
    rw [hqp]
    cases hst : validateState "ADD_TO_CART" ctx.currentState
        (ValidStates.only [.IDLE, .BROWSING, .CART_OPEN]) with
    | some e => rw [hst] at hv; simp at hv
    | none =>
        rw [hst] at hv
        simp only [] at hv
        cases hpid : validateProductId (p.bind (fun q => q.product_id)) with
        | some e => rw [hpid] at hv; simp at hv
        | none =>
            rw [hpid] at hv
            simp only [] at hv
            cases hq : validateQuantity (p.bind (fun q => q.quantity)) with
            | some e => rw [hq] at hv; simp at hv
            | none => exact validateQuantity_none_inv _ hq
  · rw [validateAction_update_quantity p ctx] at hv
    rw [hqp]
    cases hst : validateState "UPDATE_QUANTITY" ctx.currentState
        (ValidStates.only [.CART_OPEN]) with
    | some e => rw [hst] at hv; simp at hv
    | none =>
        rw [hst] at hv
        simp only [] at hv
        cases hpid : validateProductId (p.bind (fun q => q.product_id)) with
        | some e => rw [hpid] at hv; simp at hv
        | none =>
            rw [hpid] at hv
            simp only [] at hv
            cases hq : validateQuantity (p.bind (fun q => q.quantity)) with
            | some e => rw [hq] at hv; simp at hv
            | none => exact validateQuantity_none_inv _ hq

lemma executeSingleAction_qty_lower (a : ProposedAction) (s : ConversationState)
    (catalog : List Product) (ctx : ValidationContext)
    (hv : (validateAction a ctx).valid = true)
    (h : ∀ it ∈ s.cart_json.items, 1 ≤ it.quantity) :
    ∀ it ∈ (executeSingleAction a s catalog).state.cart_json.items,
      1 ≤ it.quantity := by
  intro it hmem
  unfold executeSingleAction at hmem
  split at hmem
  · -- ADD_TO_CART
    rename_i heq
    obtain ⟨q, hq, -, h1, -⟩ := validateAction_valid_qty a ctx (Or.inl heq) hv
    unfold executeAddToCart at hmem
    split at hmem
    · rename_i pid q' hpid hq'
      rw [hq] at hq'
      injection hq' with hq'
      subst hq'
      split at hmem
      · exact h it hmem
      · split at hmem
        · exact h it hmem
        · dsimp only at hmem
          split at hmem
          · split at hmem
            · rename_i item hget
              rcases List.mem_or_eq_of_mem_set hmem with hin | rfl
              · exact h it hin
              · have hold : 1 ≤ item.quantity := h item (List.getElem?_mem hget)
                have : (1 : ℚ) ≤ QUANTITY_MIN := le_refl 1
                show 1 ≤ item.quantity + q
                have h1' : (1 : ℚ) ≤ q := h1
                linarith
            · exact h it hmem
          · rcases List.mem_append.mp hmem with hin | hnew
            · exact h it hin
            · rcases List.mem_singleton.mp hnew with rfl
              exact h1
    · exact h it hmem
  · -- UPDATE_QUANTITY
    rename_i heq
    obtain ⟨q, hq, -, h1, -⟩ := validateAction_valid_qty a ctx (Or.inr heq) hv
    unfold executeUpdateQuantity at hmem
    split at hmem
    · rename_i pid q' hpid hq'
      rw [hq] at hq'
      injection hq' with hq'
      subst hq'
      split at hmem
      · exact h it hmem
      · split at hmem
        · exact h it hmem
        · dsimp only at hmem
          split at hmem
          · rcases List.mem_or_eq_of_mem_set hmem with hin | rfl
            · exact h it hin
            · exact h1
          · exact h it hmem
    · exact h it hmem
  · -- REMOVE_ITEM
    unfold executeRemoveItem at hmem
    split at hmem
    · exact h it hmem
    · split at hmem
      · exact h it hmem
      · split at hmem
        · exact h it hmem
        · exact h it (List.mem_of_mem_eraseIdx hmem)
  · -- CLEAR_CART
    exact absurd hmem (List.not_mem_nil it)
  · -- REVIEW_ORDER
    unfold executeReviewOrder at hmem
    split at hmem
    · exact h it hmem
    · exact h it hmem
  · -- CONFIRM_ORDER
    unfold executeConfirmOrder at hmem
    split at hmem
    · exact h it hmem
    · exact h it hmem
  · -- CANCEL_ORDER
    exact absurd hmem (List.not_mem_nil it)
  · -- ESCALATE
    exact h it hmem
  · exact h it hmem
  · exact h it hmem
  · exact h it hmem
  · exact h it hmem
  · exact h it hmem

/-- The product ids an action sequence proposes to ADD_TO_CART. -/
def addTargets (actions : List ProposedAction) : List String :=
  actions.filterMap (fun a =>
    if a.type = "ADD_TO_CART" then a.productId else none)

lemma executeSingleAction_pids (a : ProposedAction) (s : ConversationState)
    (catalog : List Product) :
    ∀ x ∈ ((executeSingleAction a s catalog).state.cart_json.items.map
        (fun it => it.product_id)),
      x ∈ s.cart_json.items.map (fun it => it.product_id)
      ∨ (a.type = "ADD_TO_CART" ∧ a.productId = some x) := by
  intro x hx
  rw [List.mem_map] at hx
  obtain ⟨it, hmem, rfl⟩ := hx
  unfold executeSingleAction at hmem
  split at hmem
  · -- ADD_TO_CART
    rename_i heq
    unfold executeAddToCart at hmem
    split at hmem
    · rename_i pid q hpid hq
      split at hmem
      · exact Or.inl (List.mem_map_of_mem _ hmem)
      · split at hmem
        · exact Or.inl (List.mem_map_of_mem _ hmem)
        · rename_i product hfind
          dsimp only at hmem
          split at hmem
          · split at hmem
            · rename_i item hget
              rcases List.mem_or_eq_of_mem_set hmem with hin | rfl
              · exact Or.inl (List.mem_map_of_mem _ hin)
              · have hmm : item ∈ s.cart_json.items := List.getElem?_mem hget
                refine Or.inl ?_
                show item.product_id ∈ _
                exact List.mem_map_of_mem _ hmm
            · exact Or.inl (List.mem_map_of_mem _ hmem)
          · rcases List.mem_append.mp hmem with hin | hnew
            · exact Or.inl (List.mem_map_of_mem _ hin)
            · rcases List.mem_singleton.mp hnew with rfl
              have : product.id = pid := by
                have := List.find?_some hfind
                simpa using this
              exact Or.inr ⟨heq, by rw [this]; exact hpid⟩
    · exact Or.inl (List.mem_map_of_mem _ hmem)
  · -- UPDATE_QUANTITY
    unfold executeUpdateQuantity at hmem
    split at hmem
    · split at hmem
      · exact Or.inl (List.mem_map_of_mem _ hmem)
      · split at hmem
        · exact Or.inl (List.mem_map_of_mem _ hmem)
        · dsimp only at hmem
          split at hmem
          · rename_i item hget
            rcases List.mem_or_eq_of_mem_set hmem with hin | rfl
            · exact Or.inl (List.mem_map_of_mem _ hin)
            · have hmm : item ∈ s.cart_json.items := List.getElem?_mem hget
              refine Or.inl ?_
              show item.product_id ∈ _
              exact List.mem_map_of_mem _ hmm
          · exact Or.inl (List.mem_map_of_mem _ hmem)
    · exact Or.inl (List.mem_map_of_mem _ hmem)
  · -- REMOVE_ITEM
    unfold executeRemoveItem at hmem
    split at hmem
    · exact Or.inl (List.mem_map_of_mem _ hmem)
    · split at hmem
      · exact Or.inl (List.mem_map_of_mem _ hmem)
      · split at hmem
        · exact Or.inl (List.mem_map_of_mem _ hmem)
        · exact Or.inl (List.mem_map_of_mem _ (List.mem_of_mem_eraseIdx hmem))
  · exact absurd hmem (List.not_mem_nil it)
  · unfold executeReviewOrder at hmem
    split at hmem
    · exact Or.inl (List.mem_map_of_mem _ hmem)
    · exact Or.inl (List.mem_map_of_mem _ hmem)
  · unfold executeConfirmOrder at hmem
    split at hmem
    · exact Or.inl (List.mem_map_of_mem _ hmem)
    · exact Or.inl (List.mem_map_of_mem _ hmem)
  · exact absurd hmem (List.not_mem_nil it)
  · exact Or.inl (List.mem_map_of_mem _ hmem)
  · exact Or.inl (List.mem_map_of_mem _ hmem)
  · exact Or.inl (List.mem_map_of_mem _ hmem)
  · exact Or.inl (List.mem_map_of_mem _ hmem)
  · exact Or.inl (List.mem_map_of_mem _ hmem)
  · exact Or.inl (List.mem_map_of_mem _ hmem)

lemma executeSingleAction_qty_bounds (a : ProposedAction) (s : ConversationState)
    (catalog : List Product) (ctx : ValidationContext)
    (hv : (validateAction a ctx).valid = true)
    (h : ∀ it ∈ s.cart_json.items, 1 ≤ it.quantity ∧ it.quantity ≤ 100)
    (hnomerge : a.type = "ADD_TO_CART" → ∀ pid, a.productId = some pid →
        pid ∉ s.cart_json.items.map (fun it => it.product_id)) :
    ∀ it ∈ (executeSingleAction a s catalog).state.cart_json.items,
      1 ≤ it.quantity ∧ it.quantity ≤ 100 := by
  intro it hmem
  unfold executeSingleAction at hmem
  split at hmem
  · -- ADD_TO_CART
    rename_i heq
    obtain ⟨q, hq, -, h1, h100⟩ := validateAction_valid_qty a ctx (Or.inl heq) hv
    unfold executeAddToCart at hmem
    split at hmem
    · rename_i pid q' hpid hq'
      rw [hq] at hq'
      injection hq' with hq'
      subst hq'
      split at hmem
      · exact h it hmem
      · split at hmem
        · exact h it hmem
        · have hnone : List.findIdx? (fun i => i.product_id = pid)
              s.cart_json.items = none := by
            rw [List.findIdx?_eq_none_iff]
            intro x hx
            exact decide_eq_false (fun hpx => hnomerge heq pid hpid
              (by rw [← hpx]; exact List.mem_map_of_mem _ hx))
          dsimp only at hmem
          rw [hnone] at hmem
          rcases List.mem_append.mp hmem with hin | hnew
          · exact h it hin
          · rcases List.mem_singleton.mp hnew with rfl
            exact ⟨h1, h100⟩
    · exact h it hmem
  · -- UPDATE_QUANTITY
    rename_i heq
    obtain ⟨q, hq, -, h1, h100⟩ := validateAction_valid_qty a ctx (Or.inr heq) hv
    unfold executeUpdateQuantity at hmem
    split at hmem
    · rename_i pid q' hpid hq'
      rw [hq] at hq'
      injection hq' with hq'
      subst hq'
      split at hmem
      · exact h it hmem
      · split at hmem
        · exact h it hmem
        · dsimp only at hmem
          split at hmem
          · rcases List.mem_or_eq_of_mem_set hmem with hin | rfl
            · exact h it hin
            · exact ⟨h1, h100⟩
          · exact h it hmem
    · exact h it hmem
  · -- REMOVE_ITEM
    unfold executeRemoveItem at hmem
    split at hmem
    · exact h it hmem
    · split at hmem
      · exact h it hmem
      · split at hmem
        · exact h it hmem
        · exact h it (List.mem_of_mem_eraseIdx hmem)
  · exact absurd hmem (List.not_mem_nil it)
  · unfold executeReviewOrder at hmem
    split at hmem
    · exact h it hmem
    · exact h it hmem
  · unfold executeConfirmOrder at hmem
    split at hmem
    · exact h it hmem
    · exact h it hmem
  · exact absurd hmem (List.not_mem_nil it)
  · exact h it hmem
  · exact h it hmem
  · exact h it hmem
  · exact h it hmem
  · exact h it hmem
  · exact h it hmem

lemma execFold_qty_lower (catalog : List Product) (ctx : ValidationContext) :
    ∀ (actions : List ProposedAction)
      (acc : ConversationState × List ProposedAction),
      (∀ a ∈ actions, (validateAction a ctx).valid = true) →
      (∀ it ∈ acc.1.cart_json.items, 1 ≤ it.quantity) →
      ∀ it ∈ ((actions.foldl (execStep catalog) acc).1.cart_json.items),
        1 ≤ it.quantity := by
  intro actions
  induction actions with
  | nil => intro acc _ h; exact h
  | cons a rest ih =>
      intro acc hval h
      exact ih _ (fun b hb => hval b (List.mem_cons_of_mem a hb))
        (executeSingleAction_qty_lower a acc.1 catalog ctx
          (hval a (List.mem_cons_self a rest)) h)

lemma execFold_qty_bounds (catalog : List Product) (ctx : ValidationContext) :
    ∀ (actions : List ProposedAction)
      (acc : ConversationState × List ProposedAction),
      (∀ a ∈ actions, (validateAction a ctx).valid = true) →
      (∀ it ∈ acc.1.cart_json.items, 1 ≤ it.quantity ∧ it.quantity ≤ 100) →
      (∀ a ∈ actions, a.type = "ADD_TO_CART" → ∀ pid, a.productId = some pid →
          pid ∉ acc.1.cart_json.items.map (fun it => it.product_id)) →
      (addTargets actions).Pairwise (· ≠ ·) →
      ∀ it ∈ ((actions.foldl (execStep catalog) acc).1.cart_json.items),
        1 ≤ it.quantity ∧ it.quantity ≤ 100 := by
  intro actions
  induction actions with
  | nil => intro acc _ h _ _; exact h
  | cons a rest ih =>
      intro acc hval h hfresh hpw
      have hstep : ∀ it ∈ ((execStep catalog acc a).1.cart_json.items),
          1 ≤ it.quantity ∧ it.quantity ≤ 100 :=
        executeSingleAction_qty_bounds a acc.1 catalog ctx
          (hval a (List.mem_cons_self a rest)) h
          (fun hadd pid hpid => hfresh a (List.mem_cons_self a rest) hadd pid hpid)
      have hpw' : (addTargets rest).Pairwise (· ≠ ·) := by
        unfold addTargets at hpw ⊢
        rw [List.filterMap_cons] at hpw
        cases hfa : (if a.type = "ADD_TO_CART" then a.productId else none) with
        | none => rw [hfa] at hpw; exact hpw
        | some pid => rw [hfa] at hpw; exact hpw.of_cons
      have hfresh' : ∀ b ∈ rest, b.type = "ADD_TO_CART" →
          ∀ pid, b.productId = some pid →
          pid ∉ (execStep catalog acc a).1.cart_json.items.map
            (fun it => it.product_id) := by
        intro b hb hbadd pid hbpid hmem
        rcases executeSingleAction_pids a acc.1 catalog pid hmem with hold | ⟨hadd, hapid⟩
        · exact hfresh b (List.mem_cons_of_mem a hb) hbadd pid hbpid hold
        · -- a and b both ADD the same product id, contradicting pairwise
          have hmema : pid ∈ addTargets (a :: rest) := by
            unfold addTargets
            rw [List.filterMap_cons]
            rw [if_pos hadd, hapid]
            exact List.mem_cons_self pid _
          have hmemb : pid ∈ addTargets rest := by
            unfold addTargets
            rw [List.mem_filterMap]
            exact ⟨b, hb, by rw [if_pos hbadd]; exact hbpid⟩
          have hhead : ∀ y ∈ addTargets rest, pid ≠ y := by
            have := hpw
            unfold addTargets at this
            rw [List.filterMap_cons, if_pos hadd, hapid] at this
            exact (List.pairwise_cons.mp this).1
          exact hhead pid hmemb rfl
      exact ih _ (fun b hb => hval b (List.mem_cons_of_mem a hb))
        hstep hfresh' hpw'

/-- C5 (amended): starting from a cart whose quantities are all in [1,100]
and executing a sequence of validator-accepted actions, every quantity in
the resulting cart is still at least 1; and when no ADD_TO_CART targets a
product already in the starting cart nor the same product twice (so no
merge occurs), every quantity is still in [1,100].  (The upper bound alone
is not preserved in general: a merging ADD_TO_CART may exceed it, see the
counterexample.) -/
theorem C5_quantity_bounds (s : ConversationState)
    (actions : List ProposedAction) (catalog : List Product)
    (hstart : cartQtyBounds s.cart_json)
    (hval : ∀ a ∈ actions, (validateAction a
        { currentState := s.fsm_state, cart := s.cart_json }).valid = true) :
    (∀ it ∈ (executeActions
        { actions := actions, current_state := s,
          product_catalog := catalog }).new_state.cart_json.items,
      1 ≤ it.quantity)
    ∧ ((∀ a ∈ actions, a.type = "ADD_TO_CART" → ∀ pid, a.productId = some pid →
          pid ∉ s.cart_json.items.map (fun it => it.product_id)) →
        (addTargets actions).Pairwise (· ≠ ·) →
        cartQtyBounds (executeActions
          { actions := actions, current_state := s,
            product_catalog := catalog }).new_state.cart_json) := by
  constructor
  · exact execFold_qty_lower catalog _ actions (s, []) hval
      (fun it hit => (hstart it hit).1)
  · intro hfresh hpw
    exact execFold_qty_bounds catalog _ actions (s, []) hval hstart hfresh hpw

/-- Witness for C5 at a concrete input: adding a fresh product to a
one-line cart keeps all quantities in bounds. -/
theorem C5_witness :
    cartQtyBounds (executeActions
      { actions := [{ type := "ADD_TO_CART",
                      params := some { product_id := some "P2", quantity := some 5 } }]
        current_state := cartOpenState
        product_catalog := [{ id := "P2", name := "Agua", price := 7, active := true }] }).new_state.cart_json :=
  (C5_quantity_bounds cartOpenState _ _
    (by intro it hit
        simp only [cartOpenState, List.mem_singleton] at hit
        rw [hit]
        exact ⟨by norm_num, by norm_num⟩)
    (by intro a ha
        simp only [List.mem_singleton] at ha
        rw [ha]
        decide)).2
    (by intro a ha hadd pid hpid
        simp only [List.mem_singleton] at ha
        rw [ha] at hpid
        have hpid2 : some "P2" = some pid := hpid
        injection hpid2 with h3
        rw [← h3]
        decide)
    (by decide)

-- ===========================================================================
-- Pipeline decomposition (used by claims C9 and C10)
-- ===========================================================================

/-- The LLM context the pipeline builds in steps 2 and 4. -/
def pipelineContext (env : ProcessMessageEnv) : LlmContextInput :=
  { current_state := env.conversationState.fsm_state
    detected_events := detectEvents
      { customer_message := env.customer_message
        has_image := false
        human_override := env.conversationState.human_override }
    cart := env.conversationState.cart_json
    customer_message := env.customer_message
    recent_history := env.recentHistory
    product_catalog := env.products }

/-- The validation context the pipeline passes to `getValidActions`. -/
def pipelineValidationCtx (env : ProcessMessageEnv) : ValidationContext :=
  { currentState := env.conversationState.fsm_state
    cart := env.conversationState.cart_json }

/-- The orchestrator response inside the pipeline. -/
def pipelineLlm (env : ProcessMessageEnv) (parse : String → Option Json)
    (rawResult : Except Unit Json) : LlmResponse :=
  runLlmOrchestrator parse (pipelineContext env) rawResult

/-- The accepted/rejected split inside the pipeline. -/
def pipelineSplit (env : ProcessMessageEnv) (parse : String → Option Json)
    (rawResult : Except Unit Json) : ValidActionsSplit :=
  getValidActions (pipelineLlm env parse rawResult).proposed_actions
    (pipelineValidationCtx env)

/-- The execution outcome inside the pipeline. -/
def pipelineExec (env : ProcessMessageEnv) (parse : String → Option Json)
    (rawResult : Except Unit Json) : ExecuteActionsResult :=
  executeActions
    { actions := (pipelineSplit env parse rawResult).valid
      current_state := env.conversationState
      product_catalog := env.products }

/-- The validation error strings inside the pipeline. -/
def pipelineErrors (env : ProcessMessageEnv) (parse : String → Option Json)
    (rawResult : Except Unit Json) : List String :=
  (((pipelineSplit env parse rawResult).rejected.filterMap
      (fun r => r.error)).filter (fun e => e ≠ ""))

lemma processMessage_no_override (env : ProcessMessageEnv)
    (parse : String → Option Json) (rawResult : Except Unit Json)
    (h : env.conversationState.human_override = false) :
    processMessage env parse rawResult =
      { result := buildResponse
          { human_override := (pipelineExec env parse rawResult).new_state.human_override
            response_text := some (pipelineLlm env parse rawResult).response_text
            new_state := (pipelineExec env parse rawResult).new_state.fsm_state
            executed_actions := (pipelineExec env parse rawResult).executed_actions
            validation_errors := pipelineErrors env parse rawResult }
        llmCalled := true
        savedState := some
          { fsm_state := (pipelineExec env parse rawResult).new_state.fsm_state
            cart_json := (pipelineExec env parse rawResult).new_state.cart_json
            human_override := (pipelineExec env parse rawResult).new_state.human_override
            human_override_at := (pipelineExec env parse rawResult).new_state.human_override_at
            last_llm_response := pipelineLlm env parse rawResult }
        actionHistory := (pipelineExec env parse rawResult).executed_actions.map
          (fun action =>
            { conversation_id := env.conversation_id
              action_type := action.type
              action_payload := action.params.getD {}
              validated := true
              executed := true
              fsm_state_before := env.conversationState.fsm_state
              fsm_state_after := (pipelineExec env parse rawResult).new_state.fsm_state }) } := by
  unfold processMessage
  dsimp only []
  rw [if_neg (show ¬ (env.conversationState.human_override = true) by simp [h])]
  rfl

/-- The fields `buildResponse` sets identically in every branch. -/
lemma buildResponse_fields (input : BuildResponseInput) :
    (buildResponse input).new_state = some input.new_state
    ∧ (buildResponse input).executed_actions = some input.executed_actions
    ∧ (buildResponse input).validation_errors =
        (if input.validation_errors.length > 0
         then some input.validation_errors else none) := by
  unfold buildResponse
  dsimp only []
  split
  · exact ⟨rfl, rfl, rfl⟩
  · cases input.response_text with
    | none => exact ⟨rfl, rfl, rfl⟩
    | some rt =>
        simp only []
        split
        · exact ⟨rfl, rfl, rfl⟩
        · exact ⟨rfl, rfl, rfl⟩

-- ===========================================================================
-- Unknown product id: validated but silently dropped (claim C9)
-- ===========================================================================

/-- C9: an ADD_TO_CART whose product_id is not in the supplied catalog
passes validation (the validator never consults the catalog), is silently
dropped by the executor (not executed, state untouched), and the pipeline
result shows it in neither executed_actions nor validation_errors while the
state is returned (and persisted) unchanged. -/
theorem C9_unknown_product_silently_dropped (env : ProcessMessageEnv)
    (parse : String → Option Json) (rawResult : Except Unit Json)
    (a : ProposedAction) (pid : String) (q : ℚ) (v : Json) (resp : LlmResponse)
    (hover : env.conversationState.human_override = false)
    (hstate : env.conversationState.fsm_state = .IDLE
      ∨ env.conversationState.fsm_state = .BROWSING
      ∨ env.conversationState.fsm_state = .CART_OPEN)
    (hatype : a.type = "ADD_TO_CART")
    (hapid : a.productId = some pid)
    (haqty : a.quantityParam = some q)
    (hpidne : ¬ (pid = "" ∨ strTrim pid = ""))
    (hq : q.den = 1 ∧ QUANTITY_MIN ≤ q ∧ q ≤ QUANTITY_MAX)
    (hcat : ∀ pr ∈ env.products, ¬ pr.id = pid)
    (hraw : rawToJson parse rawResult = some v)
    (hvresp : validateLlmResponse v = some resp)
    (hacts : resp.proposed_actions = [a]) :
    (validateAction a
      { currentState := env.conversationState.fsm_state
        cart := env.conversationState.cart_json }).valid = true
    ∧ (executeSingleAction a env.conversationState env.products).executed = false
    ∧ (executeSingleAction a env.conversationState env.products).state
        = env.conversationState
    ∧ (processMessage env parse rawResult).result.executed_actions = some []
    ∧ (processMessage env parse rawResult).result.validation_errors = none
    ∧ (processMessage env parse rawResult).result.new_state
        = some env.conversationState.fsm_state
    ∧ (processMessage env parse rawResult).savedState.map (fun sv => sv.cart_json)
        = some env.conversationState.cart_json := by
  obtain ⟨t, p⟩ := a
  dsimp only at hatype
  subst hatype
  have hapid' : p.bind (fun x => x.product_id) = some pid := hapid
  have haqty' : p.bind (fun x => x.quantity) = some q := haqty
  -- the validator accepts the action without consulting any catalog
  have hvalid : validateAction { type := "ADD_TO_CART", params := p }
      { currentState := env.conversationState.fsm_state
        cart := env.conversationState.cart_json } =
      { valid := true, error := none,
        action := { type := "ADD_TO_CART", params := p } } := by
    rw [validateAction_add_to_cart]
    have hst : validateState "ADD_TO_CART" env.conversationState.fsm_state
        (ValidStates.only [.IDLE, .BROWSING, .CART_OPEN]) = none := by
      rcases hstate with h' | h' | h' <;> rw [h'] <;> rfl
    rw [hst]
    simp only []
    rw [hapid']
    have hpidok : validateProductId (some pid) = none := by
      simp only [validateProductId]
      rw [if_neg hpidne]
    rw [hpidok]
    simp only []
    rw [haqty', validateQuantity_none_of_good q hq]
  -- the executor drops the action because the product is not in the catalog
  have hfind : env.products.find? (fun pr => pr.id = pid) = none := by
    rw [List.find?_eq_none]
    intro x hx
    simp only [decide_eq_true_eq]
    exact hcat x hx
  have hsingle : executeSingleAction { type := "ADD_TO_CART", params := p }
      env.conversationState env.products =
      { executed := false, state := env.conversationState } := by
    show executeAddToCart { type := "ADD_TO_CART", params := p }
      env.conversationState env.products =
      { executed := false, state := env.conversationState }
    unfold executeAddToCart
    rw [show ProposedAction.productId { type := "ADD_TO_CART", params := p }
        = some pid from hapid']
    rw [show ProposedAction.quantityParam { type := "ADD_TO_CART", params := p }
        = some q from haqty']
    simp only []
    rw [if_neg, hfind]
    rintro (h' | h')
    · exact hpidne (Or.inl h')
    · rw [h'] at hq
      have := hq.2.1
      norm_num [QUANTITY_MIN] at this
  -- the orchestrator delivers exactly this one action to the pipeline
  have hllmacts : (pipelineLlm env parse rawResult).proposed_actions
      = [{ type := "ADD_TO_CART", params := p }] := by
    unfold pipelineLlm
    rw [runLlmOrchestrator_eq, hraw]
    simp only []
    rw [hvresp]
    simp only []
    cases hss : resp.suggested_state with
    | none => simp only []; exact hacts
    | some st => simp only []; exact hacts
  have hvalid2 : validateAction { type := "ADD_TO_CART", params := p }
      (pipelineValidationCtx env) =
      { valid := true, error := none,
        action := { type := "ADD_TO_CART", params := p } } := hvalid
  have hsplit : pipelineSplit env parse rawResult =
      { valid := [{ type := "ADD_TO_CART", params := p }], rejected := [] } := by
    unfold pipelineSplit getValidActions validateActions
    rw [hllmacts]
    simp only [List.map]
    rw [hvalid2]
    rfl
  have hexec : pipelineExec env parse rawResult =
      { executed_actions := [], new_state := env.conversationState } := by
    unfold pipelineExec
    rw [hsplit]
    unfold executeActions
    simp only [List.foldl]
    unfold execStep
    rw [hsingle]
    rfl
  have herr : pipelineErrors env parse rawResult = [] := by
    unfold pipelineErrors
    rw [hsplit]
    rfl
  refine ⟨by rw [hvalid], by rw [hsingle], by rw [hsingle], ?_, ?_, ?_, ?_⟩
  · rw [processMessage_no_override env parse rawResult hover]
    show (buildResponse _).executed_actions = some []
    rw [(buildResponse_fields _).2.1]
    rw [hexec]
  · rw [processMessage_no_override env parse rawResult hover]
    show (buildResponse _).validation_errors = none
    rw [(buildResponse_fields _).2.2]
    simp only [herr]
    rfl
  · rw [processMessage_no_override env parse rawResult hover]
    show (buildResponse _).new_state = some _
    rw [(buildResponse_fields _).1]
    rw [hexec]
  · rw [processMessage_no_override env parse rawResult hover]
    simp only [Option.map_some]
    rw [hexec]
    rfl

/-- A concrete generation output proposing ADD_TO_CART of the unknown
product P9. -/
def c9Json : Json :=
  Json.obj
    [("proposed_actions", Json.arr
        [Json.obj
          [("type", Json.str "ADD_TO_CART"),
           ("params", Json.obj
              [("product_id", Json.str "P9"),
               ("quantity", Json.num 2)])]]),
     ("response_text", Json.str "Listo")]

/-- The structured action the adapter extracts from `c9Json`. -/
def c9Action : ProposedAction :=
  { type := "ADD_TO_CART"
    params := some { product_id := some "P9", product_name := none,
                     quantity := some 2, reason := none } }

/-- The validated response the adapter produces from `c9Json`. -/
def c9Resp : LlmResponse :=
  { reasoning := none
    proposed_actions := [c9Action]
    response_text := "Listo"
    suggested_state := none }

/-- An environment whose catalog does not contain P9. -/
def c9Env : ProcessMessageEnv :=
  { conversation_id := "c9"
    customer_message := "quiero P9"
    wa_phone := "+59170000001"
    tenant_id := "t1"
    conversationState := cartOpenState
    products := [{ id := "P1", name := "Jugo", price := 10, active := true }]
    recentHistory := [] }

/-- Witness for C9 at a concrete input. -/
theorem C9_witness :
    (validateAction c9Action
      { currentState := c9Env.conversationState.fsm_state
        cart := c9Env.conversationState.cart_json }).valid = true
    ∧ (processMessage c9Env (fun _ => none) (Except.ok c9Json)).result.executed_actions
        = some []
    ∧ (processMessage c9Env (fun _ => none) (Except.ok c9Json)).result.validation_errors
        = none := by
  have h := C9_unknown_product_silently_dropped c9Env (fun _ => none)
    (Except.ok c9Json) c9Action "P9" 2 c9Json c9Resp
    rfl (Or.inr (Or.inr rfl)) rfl rfl rfl
    (by decide)
    ⟨rfl, by decide, by decide⟩
    (by decide)
    rfl
    (by decide)
    rfl
  exact ⟨h.1, h.2.2.2.1, h.2.2.2.2.1⟩

-- ===========================================================================
-- Prohibited types never reach the pipeline validator (claim C10)
-- ===========================================================================

/-- A rejection reason produced by the prohibited-action branch of
`validateAction`. -/
def isProhibitedMsg (e : String) : Prop :=
  ∃ t, isProhibitedAction t = true
    ∧ e = "Action \"" ++ t ++ "\" is prohibited"

lemma firstChar_of_prohibitedMsg (e : String) (h : isProhibitedMsg e) :
    firstChar e = some 'A' := by
  obtain ⟨t, -, rfl⟩ := h
  exact firstChar_append_left _ _ 'A' (firstChar_append_left _ _ 'A' rfl)

lemma allowed_not_prohibited :
    ∀ t ∈ ALLOWED_ACTIONS, isProhibitedAction t = false := by decide

lemma allowed_has_rules :
    ∀ t ∈ ALLOWED_ACTIONS, (ACTION_VALIDATION_RULES t).isSome = true := by decide

/-- For every allowed type, every state and every prohibited type, the
state-legality rejection message differs from the prohibition message. -/
lemma stateMsg_ne_prohibited :
    ∀ t' ∈ ALLOWED_ACTIONS, ∀ t ∈ PROHIBITED_ACTIONS, ∀ cur : FsmState,
    ∀ rules, ACTION_VALIDATION_RULES t' = some rules →
      validateState t' cur rules.validStates
        ≠ some ("Action \"" ++ t ++ "\" is prohibited") := by
  intro t' ht' t ht cur rules hrules
  fin_cases ht' <;>
    (simp only [ACTION_VALIDATION_RULES] at hrules;
     injection hrules with h1; subst h1;
     fin_cases ht <;> cases cur <;> decide)

lemma validateQuantity_some_isQuantityMsg (q : Option ℚ) (e : String)
    (h : validateQuantity q = some e) : isQuantityErrorMsg e := by
  cases q with
  | none =>
      simp only [validateQuantity] at h
      injection h with h1
      exact Or.inl h1.symm
  | some r =>
      simp only [validateQuantity] at h
      split at h
      · injection h with h1
        exact Or.inr (Or.inl ⟨r, h1.symm⟩)
      · split at h
        · injection h with h1
          exact Or.inr (Or.inr ⟨r, h1.symm⟩)
        · exact absurd h (by simp)

/-- Where a rejection of an allowed-type action can come from. -/
lemma validateAction_error_cases (a : ProposedAction) (ctx : ValidationContext)
    (e : String) (hallow : isAllowedAction a.type = true)
    (herr : (validateAction a ctx).error = some e) :
    (∃ rules, ACTION_VALIDATION_RULES a.type = some rules
        ∧ validateState a.type ctx.currentState rules.validStates = some e)
    ∨ validateProductId a.productId = some e
    ∨ validateQuantity a.quantityParam = some e
    ∨ validateCartNotEmpty ctx.cart = some e
    ∨ validateItemInCart a.productId ctx.cart = some e := by
  have hmem : a.type ∈ ALLOWED_ACTIONS := List.mem_of_elem_eq_true hallow
  have hp : ¬ (isProhibitedAction a.type = true) := by
    rw [allowed_not_prohibited a.type hmem]
    simp
  unfold validateAction at herr
  rw [if_neg hp, if_neg (not_not_intro hallow)] at herr
  cases hrules : ACTION_VALIDATION_RULES a.type with
  | none =>
      have := allowed_has_rules _ hmem
      rw [hrules] at this
      exact absurd this (by simp)
  | some rules =>
      rw [hrules] at herr
      simp only [] at herr
      cases hse : validateState a.type ctx.currentState rules.validStates with
      | some se =>
          rw [hse] at herr
          simp only [] at herr
          injection herr with h1
          subst h1
          exact Or.inl ⟨rules, rfl, hse⟩
      | none =>
          rw [hse] at herr
          simp only [] at herr
          cases hpe : (if rules.requiresProductId = true
              then validateProductId a.productId else none) with
          | some pe =>
              rw [hpe] at herr
              simp only [] at herr
              injection herr with h1
              subst h1
              split at hpe
              · exact Or.inr (Or.inl hpe)
              · exact absurd hpe (by simp)
          | none =>
              rw [hpe] at herr
              simp only [] at herr
              cases hqe : (if rules.requiresQuantity = true
                  then validateQuantity a.quantityParam else none) with
              | some qe =>
                  rw [hqe] at herr
                  simp only [] at herr
                  injection herr with h1
                  subst h1
                  split at hqe
                  · exact Or.inr (Or.inr (Or.inl hqe))
                  · exact absurd hqe (by simp)
              | none =>
                  rw [hqe] at herr
                  simp only [] at herr
                  cases hce : (if rules.requiresCartNotEmpty = true
                      then validateCartNotEmpty ctx.cart else none) with
                  | some ce =>
                      rw [hce] at herr
                      simp only [] at herr
                      injection herr with h1
                      subst h1
                      split at hce
                      · exact Or.inr (Or.inr (Or.inr (Or.inl hce)))
                      · exact absurd hce (by simp)
                  | none =>
                      rw [hce] at herr
                      simp only [] at herr
                      cases hie : (if rules.requiresItemInCart = true
                          then validateItemInCart a.productId ctx.cart else none) with
                      | some ie =>
                          rw [hie] at herr
                          simp only [] at herr
                          injection herr with h1
                          subst h1
                          split at hie
                          · exact Or.inr (Or.inr (Or.inr (Or.inr hie)))
                          · exact absurd hie (by simp)
                      | none =>
                          rw [hie] at herr
                          simp only [] at herr
                          exact absurd herr (by simp)

/-- A rejection of an allowed-type action is never a prohibition reason. -/
lemma allowed_error_not_prohibitedMsg (a : ProposedAction)
    (ctx : ValidationContext) (e : String)
    (hallow : isAllowedAction a.type = true)
    (herr : (validateAction a ctx).error = some e) :
    ¬ isProhibitedMsg e := by
  intro hpro
  have hA : firstChar e = some 'A' := firstChar_of_prohibitedMsg e hpro
  rcases validateAction_error_cases a ctx e hallow herr with
    ⟨rules, heq, hse⟩ | hpe | hqe | hce | hie
  · obtain ⟨t, hpt, rfl⟩ := hpro
    have hmem : a.type ∈ ALLOWED_ACTIONS := List.mem_of_elem_eq_true hallow
    have htmem : t ∈ PROHIBITED_ACTIONS := List.mem_of_elem_eq_true hpt
    exact stateMsg_ne_prohibited a.type hmem t htmem ctx.currentState
      rules heq hse
  · rw [firstChar_of_validateProductId _ _ hpe] at hA
    exact absurd hA (by decide)
  · have := firstChar_of_quantityErrorMsg e
      (validateQuantity_some_isQuantityMsg _ _ hqe)
    rw [this] at hA
    exact absurd hA (by decide)
  · rw [firstChar_of_validateCartNotEmpty _ _ hce] at hA
    exact absurd hA (by decide)
  · rcases firstChar_of_validateItemInCart _ _ _ hie with hI | hI <;>
      · rw [hI] at hA
        exact absurd hA (by decide)

lemma toProposedAction_allowed (act : Json)
    (hva : isValidProposedAction act = true) :
    isAllowedAction (toProposedAction act).type = true := by
  cases act with
  | obj afs =>
      simp only [isValidProposedAction] at hva
      rw [Bool.and_eq_true] at hva
      obtain ⟨hty, -⟩ := hva
      cases hf : getField afs "type" with
      | none => rw [hf] at hty; exact absurd hty (by simp)
      | some t =>
          rw [hf] at hty
          simp only [] at hty
          cases t with
          | str s =>
              simp only [toProposedAction]
              rw [hf]
              exact hty
          | null => exact absurd hty (by simp [isValidActionType])
          | bool b => exact absurd hty (by simp [isValidActionType])
          | num q => exact absurd hty (by simp [isValidActionType])
          | arr xs => exact absurd hty (by simp [isValidActionType])
          | obj o => exact absurd hty (by simp [isValidActionType])
  | null => exact absurd hva (by simp [isValidProposedAction])
  | bool b => exact absurd hva (by simp [isValidProposedAction])
  | num q => exact absurd hva (by simp [isValidProposedAction])
  | str s => exact absurd hva (by simp [isValidProposedAction])
  | arr xs => exact absurd hva (by simp [isValidProposedAction])

lemma validateLlmResponse_actions_allowed (v : Json) (resp : LlmResponse)
    (h : validateLlmResponse v = some resp) :
    ∀ a ∈ resp.proposed_actions, isAllowedAction a.type = true := by
  cases v with
  | null => exact absurd h (by simp [validateLlmResponse])
  | bool b => exact absurd h (by simp [validateLlmResponse])
  | num q => exact absurd h (by simp [validateLlmResponse])
  | str s => exact absurd h (by simp [validateLlmResponse])
  | arr xs => exact absurd h (by simp [validateLlmResponse])
  | obj fields =>
      cases hpa : getField fields "proposed_actions" with
      | none => rw [validateLlmResponse, hpa] at h; exact absurd h (by simp)
      | some pa =>
          cases pa with
          | null => rw [validateLlmResponse, hpa] at h; exact absurd h (by simp)
          | bool b => rw [validateLlmResponse, hpa] at h; exact absurd h (by simp)
          | num q => rw [validateLlmResponse, hpa] at h; exact absurd h (by simp)
          | str s => rw [validateLlmResponse, hpa] at h; exact absurd h (by simp)
          | obj o => rw [validateLlmResponse, hpa] at h; exact absurd h (by simp)
          | arr acts =>
              rw [validateLlmResponse, hpa] at h
              simp only [] at h
              split at h
              · exact absurd h (by simp)
              · split at h
                · exact absurd h (by simp)
                · rename_i hall
                  rw [not_not] at hall
                  rw [List.all_eq_true] at hall
                  cases hrt : getField fields "response_text" with
                  | none => rw [hrt] at h; exact absurd h (by simp)
                  | some rt =>
                      rw [hrt] at h
                      cases rt with
                      | null => exact absurd h (by simp)
                      | bool b => exact absurd h (by simp)
                      | num q => exact absurd h (by simp)
                      | arr xs => exact absurd h (by simp)
                      | obj o => exact absurd h (by simp)
                      | str s =>
                          simp only [] at h
                          split at h
                          · exact absurd h (by simp)
                          · cases hss : getField fields "suggested_state" with
                            | none =>
                                rw [hss] at h
                                simp only [] at h
                                split at h
                                · injection h with h1
                                  subst h1
                                  intro a ha
                                  simp only [List.mem_map] at ha
                                  obtain ⟨act, hact, rfl⟩ := ha
                                  exact toProposedAction_allowed act (hall act hact)
                                · exact absurd h (by simp)
                            | some sv =>
                                rw [hss] at h
                                simp only [] at h
                                cases sv with
                                | null => exact absurd h (by simp)
                                | bool b => exact absurd h (by simp)
                                | num q => exact absurd h (by simp)
                                | arr xs => exact absurd h (by simp)
                                | obj o => exact absurd h (by simp)
                                | str ss =>
                                    simp only [] at h
                                    cases hfs : fsmStateOfString ss with
                                    | none => rw [hfs] at h; exact absurd h (by simp)
                                    | some st =>
                                        rw [hfs] at h
                                        simp only [] at h
                                        split at h
                                        · injection h with h1
                                          subst h1
                                          intro a ha
                                          simp only [List.mem_map] at ha
                                          obtain ⟨act, hact, rfl⟩ := ha
                                          exact toProposedAction_allowed act (hall act hact)
                                        · exact absurd h (by simp)

lemma pipelineLlm_actions_allowed (env : ProcessMessageEnv)
    (parse : String → Option Json) (rawResult : Except Unit Json) :
    ∀ a ∈ (pipelineLlm env parse rawResult).proposed_actions,
      isAllowedAction a.type = true := by
  intro a ha
  unfold pipelineLlm at ha
  rw [runLlmOrchestrator_eq] at ha
  cases hrj : rawToJson parse rawResult with
  | none => rw [hrj] at ha; simp [createFallbackResponse] at ha
  | some v =>
      rw [hrj] at ha
      simp only [] at ha
      cases hvr : validateLlmResponse v with
      | none => rw [hvr] at ha; simp [createFallbackResponse] at ha
      | some resp =>
          rw [hvr] at ha
          simp only [] at ha
          have hallow := validateLlmResponse_actions_allowed v resp hvr
          cases hss : resp.suggested_state with
          | none =>
              rw [hss] at ha
              simp only [] at ha
              exact hallow a ha
          | some st =>
              rw [hss] at ha
              exact hallow a ha

/-- C10: a generation output containing an action with a type outside the
twelve allowed types (in particular any of the five prohibited ones) fails
the adapter's schema validation and is replaced wholesale by the fallback
with zero actions; consequently the pipeline's validation_errors never
contains a prohibited-action rejection reason. -/
theorem C10_prohibited_blocked_at_adapter (parse : String → Option Json) :
    (∀ (input : LlmContextInput) (rawResult : Except Unit Json)
        (fields : List (String × Json)) (acts : List Json)
        (afs : List (String × Json)) (ts : String),
      rawToJson parse rawResult = some (Json.obj fields) →
      getField fields "proposed_actions" = some (Json.arr acts) →
      Json.obj afs ∈ acts →
      getField afs "type" = some (Json.str ts) →
      ts ∉ ALLOWED_ACTIONS →
      runLlmOrchestrator parse input rawResult
        = createFallbackResponse input.current_state)
    ∧ (∀ (env : ProcessMessageEnv) (rawResult : Except Unit Json),
      env.conversationState.human_override = false →
      ∀ e ∈ ((processMessage env parse rawResult).result.validation_errors.getD []),
        ¬ isProhibitedMsg e) := by
  constructor
  · intro input rawResult fields acts afs ts hraw hpa hmem hts hnot
    have hcf : isValidActionType (Json.str ts) = false := by
      simp only [isValidActionType]
      exact Bool.eq_false_iff.mpr
        (fun hc => hnot (List.mem_of_elem_eq_true hc))
    have hinvalid : isValidProposedAction (Json.obj afs) = false := by
      simp only [isValidProposedAction]
      rw [hts]
      simp only []
      rw [hcf]
      simp
    have hviol : violatesLlmContract (Json.obj fields) :=
      Or.inr ⟨fields, rfl,
        Or.inr ⟨acts, hpa,
          Or.inr (Or.inr (Or.inl ⟨Json.obj afs, hmem, hinvalid⟩))⟩⟩
    rw [runLlmOrchestrator_eq, hraw]
    simp only []
    rw [validateLlmResponse_none_of_violates _ hviol]
  · intro env rawResult hover e he
    rw [processMessage_no_override env parse rawResult hover] at he
    rw [(buildResponse_fields _).2.2] at he
    by_cases hlen : (pipelineErrors env parse rawResult).length > 0
    · rw [if_pos hlen] at he
      simp only [Option.getD_some] at he
      unfold pipelineErrors at he
      rw [List.mem_filter] at he
      obtain ⟨hmem2, -⟩ := he
      rw [List.mem_filterMap] at hmem2
      obtain ⟨r, hr, hre⟩ := hmem2
      unfold pipelineSplit getValidActions at hr
      simp only [] at hr
      rw [List.mem_filter] at hr
      obtain ⟨hrmem, hrinvalid⟩ := hr
      unfold validateActions at hrmem
      rw [List.mem_map] at hrmem
      obtain ⟨a, ha, hva⟩ := hrmem
      have hallow : isAllowedAction a.type = true :=
        pipelineLlm_actions_allowed env parse rawResult a ha
      exact fun hpro => allowed_error_not_prohibitedMsg a
        (pipelineValidationCtx env) e hallow (by rw [hva]; exact hre) hpro
    · rw [if_neg hlen] at he
      simp at he

/-- Witness for C10: a generation output proposing MODIFY_PRICE is replaced
by the fallback. -/
theorem C10_witness :
    runLlmOrchestrator (fun _ => none)
      { current_state := .CART_OPEN
        detected_events := []
        cart := DEFAULT_CART
        customer_message := "hola"
        recent_history := []
        product_catalog := [] }
      (Except.ok (Json.obj
        [("proposed_actions", Json.arr
            [Json.obj [("type", Json.str "MODIFY_PRICE")]]),
         ("response_text", Json.str "ok")]))
      = createFallbackResponse FsmState.CART_OPEN :=
  (C10_prohibited_blocked_at_adapter (fun _ => none)).1 _ _ _ _ _ "MODIFY_PRICE"
    rfl rfl (List.mem_singleton.mpr rfl) rfl (by decide)
